import Mathlib

/-!
Shallow embedding of the SPDY/3 frame codec (package spdy: types.go, read.go
and the write file) and verification of its specification claims.

Modelling conventions:
- Go byte streams are `List Nat` with every element below 256 where the wire
  is concerned; multi-byte integers are emitted big-endian exactly as the
  calls to binary.Write with BigEndian do.
- Go strings are byte slices, so header names and values are modelled as
  `List Nat` of their bytes (exact for the ASCII data the claims range over).
- `http.Header` is a map from canonicalized keys to value lists; it is
  modelled as an association list in insertion order of first use per key,
  with `Add` canonicalizing the key exactly like net/textproto does.
- The byte sink never fails: writers return the bytes emitted so far paired
  with the optional validation error, which captures how many bytes reached
  the sink when a validation error is returned.
- Readers consume a `List Nat`; `none` models an I/O (short read) failure,
  `Except.error` a SPDY validation error.
- zlib compression is external to the repository; the Framer is modelled in
  its header-compression-disabled configuration, in which header blocks go
  over the wire raw (read.go and the writers both branch on
  headerCompressionDisabled). The one compression-path fact that is claimed
  (the bounded-reader size computation of uncorkHeaderDecompressor) is
  modelled separately and exactly.
-/

namespace Spdy

/-! ## Wire primitives -/

/-- Big-endian encoding of a 16-bit word, as binary.Write with a uint16 does
(a uint16 cast reduces the value modulo 2^16, which the byte extraction below
performs implicitly). -/
def be16 (n : Nat) : List Nat := [n / 256 % 256, n % 256]

/-- Big-endian encoding of a 32-bit word, as binary.Write with a uint32 does. -/
def be32 (n : Nat) : List Nat :=
  [n / 16777216 % 256, n / 65536 % 256, n / 256 % 256, n % 256]

/-- Reading one big-endian 32-bit word from the stream, as binary.Read with a
uint32 does; fails when fewer than four bytes remain. -/
def take32? : List Nat → Option (Nat × List Nat)
  | b0 :: b1 :: b2 :: b3 :: r => some (b0 * 16777216 + b1 * 65536 + b2 * 256 + b3, r)
  | _ => none

/-- Reading one byte from the stream, as binary.Read with a uint8 does. -/
def take1? : List Nat → Option (Nat × List Nat)
  | b :: r => some (b, r)
  | [] => none

/-- Reading exactly `n` bytes from the stream, as io.ReadFull does; fails when
fewer than `n` bytes remain. -/
def takeN? (n : Nat) (l : List Nat) : Option (List Nat × List Nat) :=
  if n ≤ l.length then some (l.take n, l.drop n) else none

/-! ## Constants from types.go -/

/-- Protocol version constant (types.go: const Version = 3). -/
def Version : Nat := 3

/-- types.go: MaxDataLength is the maximum number of bytes that can be
stored in one frame (1 shifted left 24, minus 1). -/
def MaxDataLength : Nat := 1 <<< 24 - 1

def TypeSynStream : Nat := 0x0001
def TypeSynReply : Nat := 0x0002
def TypeRstStream : Nat := 0x0003
def TypeSettings : Nat := 0x0004
def TypePing : Nat := 0x0006
def TypeGoAway : Nat := 0x0007
def TypeHeaders : Nat := 0x0008
def TypeWindowUpdate : Nat := 0x0009

/-- The error taxonomy of types.go (type ErrorCode). -/
inductive ErrorCode where
  | UnlowercasedHeaderName
  | DuplicateHeaders
  | WrongCompressedPayloadSize
  | UnknownFrameType
  | InvalidControlFrame
  | InvalidDataFrame
  | InvalidHeaderPresent
  | ZeroStreamId
deriving DecidableEq

/-- A SPDY error value (types.go: struct Error with Err and StreamId). -/
structure SpdyError where
  Err : ErrorCode
  StreamId : Nat
deriving DecidableEq

/-! ## Header-block model (http.Header over byte-string keys and values) -/

/-- A Go string viewed as its bytes. -/
abbrev ByteStr := List Nat

/-- Convenience: the bytes of an ASCII string literal. -/
def bs (s : String) : ByteStr := s.data.map Char.toNat

/-- ASCII lowercasing of one byte, the effect of strings.ToLower on ASCII
input (the only input the claims range over). -/
def asciiLower (b : Nat) : Nat := if 65 ≤ b ∧ b ≤ 90 then b + 32 else b

/-- strings.ToLower on a byte string (ASCII range). -/
def strToLower (s : ByteStr) : ByteStr := s.map asciiLower

/-- net/textproto validHeaderFieldByte: letters, digits and the specific
token punctuation bytes. -/
def validHeaderFieldByte (b : Nat) : Bool :=
  (48 ≤ b ∧ b ≤ 57) ∨ (65 ≤ b ∧ b ≤ 90) ∨ (97 ≤ b ∧ b ≤ 122) ∨
    b ∈ [33, 35, 36, 37, 38, 39, 42, 43, 45, 46, 94, 95, 96, 124, 126]

/-- The per-byte loop of net/textproto canonicalMIMEHeaderKey: a letter in
an upper position (start of string or after a hyphen, byte 45) is uppercased,
a letter elsewhere is lowercased. -/
def canonLoop : Bool → ByteStr → ByteStr
  | _, [] => []
  | upper, c :: cs =>
    let c' := if upper ∧ 97 ≤ c ∧ c ≤ 122 then c - 32
              else if ¬upper ∧ 65 ≤ c ∧ c ≤ 90 then c + 32
              else c
    c' :: canonLoop (c' = 45) cs

/-- net/textproto CanonicalMIMEHeaderKey: a key containing a byte outside the
token set is returned unchanged, otherwise the case of letters is normalized.
http.Header.Add applies this to every key it stores. -/
def canonicalMIMEHeaderKey (s : ByteStr) : ByteStr :=
  if s.all validHeaderFieldByte then canonLoop true s else s

/-- The header map, in insertion order of first use per key. -/
abbrev HList := List (ByteStr × List ByteStr)

/-- Raw map indexing h[name] (no canonicalization), returning the stored
value list when the exact key is present. -/
def hdrIndex (h : HList) (name : ByteStr) : Option (List ByteStr) :=
  (h.find? (fun kv => kv.1 = name)).map (fun kv => kv.2)

/-- Appending a value under an already-canonical key, preserving first-use
order (the behavior of the underlying textproto MIMEHeader). -/
def hdrAddKey : HList → ByteStr → ByteStr → HList
  | [], key, v => [(key, [v])]
  | (k, vs) :: rest, key, v =>
    if k = key then (k, vs ++ [v]) :: rest else (k, vs) :: hdrAddKey rest key v

/-- http.Header.Add: canonicalizes the key, then appends the value. -/
def hdrAdd (h : HList) (name v : ByteStr) : HList :=
  hdrAddKey h (canonicalMIMEHeaderKey name) v

/-- strings.Join(values, headerValueSeparator) with the single-NUL separator
of the package (const headerValueSeparator = a single 0x00 byte). -/
def nulJoin : List ByteStr → ByteStr
  | [] => []
  | [v] => v
  | v :: vs => v ++ 0 :: nulJoin vs

/-- strings.Split(s, headerValueSeparator): the list of maximal NUL-free
chunks; the empty string splits to one empty chunk. -/
def nulSplit : ByteStr → List ByteStr
  | [] => [[]]
  | b :: rest =>
    match nulSplit rest with
    | [] => [[b]]
    | p :: ps => if b = 0 then [] :: p :: ps else (b :: p) :: ps

/-- types.go invalidReqHeaders (keys are in canonical MIME form because the
parsed header map stores canonical keys). -/
def invalidReqHeaders (s : ByteStr) : Bool :=
  s = bs "Connection" ∨ s = bs "Host" ∨ s = bs "Keep-Alive" ∨
    s = bs "Proxy-Connection" ∨ s = bs "Transfer-Encoding"

/-- types.go invalidRespHeaders. -/
def invalidRespHeaders (s : ByteStr) : Bool :=
  s = bs "Connection" ∨ s = bs "Keep-Alive" ∨
    s = bs "Proxy-Connection" ∨ s = bs "Transfer-Encoding"

/-! ## Frame model (types.go) -/

/-- ControlFrameHeader: version (15 bit), frame type (16 bit), flags (8 bit)
and payload length (24 bit on the wire, stored as uint32). -/
structure ControlFrameHeader where
  version : Nat
  frameType : Nat
  Flags : Nat
  length : Nat
deriving DecidableEq

structure SynStreamFrame where
  CFHeader : ControlFrameHeader
  StreamId : Nat
  AssociatedToStreamId : Nat
  Priority : Nat
  Slot : Nat
  Headers : HList
deriving DecidableEq

structure SynReplyFrame where
  CFHeader : ControlFrameHeader
  StreamId : Nat
  Headers : HList
deriving DecidableEq

structure RstStreamFrame where
  CFHeader : ControlFrameHeader
  StreamId : Nat
  Status : Nat
deriving DecidableEq

structure SettingsFlagIdValue where
  Flag : Nat
  Id : Nat
  Value : Nat
deriving DecidableEq

structure SettingsFrame where
  CFHeader : ControlFrameHeader
  FlagIdValues : List SettingsFlagIdValue
deriving DecidableEq

structure PingFrame where
  CFHeader : ControlFrameHeader
  Id : Nat
deriving DecidableEq

structure GoAwayFrame where
  CFHeader : ControlFrameHeader
  LastGoodStreamId : Nat
  GoAwayStatus : Nat
deriving DecidableEq

structure HeadersFrame where
  CFHeader : ControlFrameHeader
  StreamId : Nat
  Headers : HList
deriving DecidableEq

structure WindowUpdateFrame where
  CFHeader : ControlFrameHeader
  StreamId : Nat
  DeltaWindowSize : Nat
deriving DecidableEq

structure DataFrame where
  StreamId : Nat
  Flags : Nat
  Data : List Nat
deriving DecidableEq

/-- The closed set of frame variants (the Frame interface of types.go). -/
inductive Frame where
  | synStream (f : SynStreamFrame)
  | synReply (f : SynReplyFrame)
  | rstStream (f : RstStreamFrame)
  | settings (f : SettingsFrame)
  | ping (f : PingFrame)
  | goAway (f : GoAwayFrame)
  | headers (f : HeadersFrame)
  | windowUpdate (f : WindowUpdateFrame)
  | data (f : DataFrame)
deriving DecidableEq

/-! ## Write side (the write file) -/

/-- Result of a write: the bytes that reached the sink, and the validation
error if one was returned. A successful write has error `none`. -/
abbrev WriteResult := List Nat × Option SpdyError

/-- writeControlFrameHeader: the 32-bit word with control bit set over the
version, the 16-bit type, then flags (8 bit) ORed over the 24-bit length
exactly as the Go expression (uint32(h.Flags) shifted left 24) does. -/
def writeControlFrameHeader (h : ControlFrameHeader) : List Nat :=
  be16 (0x8000 ||| h.version) ++ be16 h.frameType ++ be32 (h.Flags <<< 24 ||| h.length)

/-- One entry of the header value block: the 32-bit length of the (original)
name, the lowercased name bytes, the 32-bit length of the NUL-joined value,
and its bytes. -/
def hvbEntry (kv : ByteStr × List ByteStr) : List Nat :=
  be32 kv.1.length ++ strToLower kv.1 ++ be32 (nulJoin kv.2).length ++ nulJoin kv.2

/-- writeHeaderValueBlock: the entry count as a 32-bit word, then the
entries. (The byte-count result the Go function also returns is ignored by
every caller and omitted here.) -/
def writeHeaderValueBlock (h : HList) : List Nat :=
  be32 h.length ++ h.flatMap hvbEntry

/-- RstStreamFrame.write: zero stream-id is rejected up front, but the
status-zero check only runs after the control header and the stream id have
already been written to the sink. -/
def writeRstStreamFrame (frame : RstStreamFrame) : WriteResult :=
  if frame.StreamId = 0 then ([], some ⟨.ZeroStreamId, 0⟩)
  else
    let cfh : ControlFrameHeader :=
      { version := Version, frameType := TypeRstStream, Flags := 0, length := 8 }
    let out := writeControlFrameHeader cfh ++ be32 frame.StreamId
    if frame.Status = 0 then (out, some ⟨.InvalidControlFrame, frame.StreamId⟩)
    else (out ++ be32 frame.Status, none)

/-- SettingsFrame.write: no validation; the length field is
uint32(count*8+4) and each entry packs flag over id in one word. -/
def writeSettingsFrame (frame : SettingsFrame) : WriteResult :=
  let cfh : ControlFrameHeader :=
    { version := Version, frameType := TypeSettings, Flags := frame.CFHeader.Flags,
      length := (frame.FlagIdValues.length * 8 + 4) % 2 ^ 32 }
  (writeControlFrameHeader cfh ++ be32 frame.FlagIdValues.length ++
      frame.FlagIdValues.flatMap (fun fiv => be32 (fiv.Flag <<< 24 ||| fiv.Id) ++ be32 fiv.Value),
    none)

/-- PingFrame.write: id zero is rejected up front; flags are forced to 0 and
the length to 4. -/
def writePingFrame (frame : PingFrame) : WriteResult :=
  if frame.Id = 0 then ([], some ⟨.ZeroStreamId, 0⟩)
  else
    let cfh : ControlFrameHeader :=
      { version := Version, frameType := TypePing, Flags := 0, length := 4 }
    (writeControlFrameHeader cfh ++ be32 frame.Id, none)

/-- GoAwayFrame.write: no stream-id validation; flags forced to 0, length 8. -/
def writeGoAwayFrame (frame : GoAwayFrame) : WriteResult :=
  let cfh : ControlFrameHeader :=
    { version := Version, frameType := TypeGoAway, Flags := 0, length := 8 }
  (writeControlFrameHeader cfh ++ be32 frame.LastGoodStreamId ++ be32 frame.GoAwayStatus, none)

/-- WindowUpdateFrame.write: note that unlike the other stream-carrying
frames there is no StreamId-zero check; flags forced to 0, length 8. -/
def writeWindowUpdateFrame (frame : WindowUpdateFrame) : WriteResult :=
  let cfh : ControlFrameHeader :=
    { version := Version, frameType := TypeWindowUpdate, Flags := 0, length := 8 }
  (writeControlFrameHeader cfh ++ be32 frame.StreamId ++ be32 frame.DeltaWindowSize, none)

/-- Framer.writeDataFrame: rejects a zero stream id, then a set reserved bit
or a payload of at least 0x0f000000 bytes; otherwise emits the stream id,
the flags byte ORed over uint32(len(data)), and the raw data. -/
def writeDataFrame (frame : DataFrame) : WriteResult :=
  if frame.StreamId = 0 then ([], some ⟨.ZeroStreamId, 0⟩)
  else if frame.StreamId &&& 0x80000000 ≠ 0 ∨ 0x0f000000 ≤ frame.Data.length then
    ([], some ⟨.InvalidDataFrame, frame.StreamId⟩)
  else
    (be32 frame.StreamId ++ be32 (frame.Flags <<< 24 ||| frame.Data.length) ++ frame.Data, none)

/-- The serialized form of a SynStream frame once the header block bytes
`hb` (the contents of the Framer scratch buffer after marshalling, compressed
or raw) are known: control header with length hb.length + 10, stream id,
associated stream id, the priority byte (uint8(Priority) shifted left 5),
the slot byte, then the block. -/
def synStreamWire (frame : SynStreamFrame) (hb : List Nat) : List Nat :=
  writeControlFrameHeader
      { version := Version, frameType := TypeSynStream, Flags := frame.CFHeader.Flags,
        length := (hb.length + 10) % 2 ^ 32 } ++
    be32 frame.StreamId ++ be32 frame.AssociatedToStreamId ++
    [frame.Priority <<< 5 % 256] ++ [frame.Slot % 256] ++ hb

/-- Framer.writeSynStreamFrame in the compression-disabled configuration:
zero stream-id check first, then the raw header block is marshalled and the
frame emitted in one piece. -/
def writeSynStreamFrame (frame : SynStreamFrame) : WriteResult :=
  if frame.StreamId = 0 then ([], some ⟨.ZeroStreamId, 0⟩)
  else (synStreamWire frame (writeHeaderValueBlock frame.Headers), none)

/-- The serialized form of a SynReply frame given the header block bytes:
control header with length hb.length + 4, stream id, block. -/
def synReplyWire (frame : SynReplyFrame) (hb : List Nat) : List Nat :=
  writeControlFrameHeader
      { version := Version, frameType := TypeSynReply, Flags := frame.CFHeader.Flags,
        length := (hb.length + 4) % 2 ^ 32 } ++
    be32 frame.StreamId ++ hb

/-- Framer.writeSynReplyFrame in the compression-disabled configuration. -/
def writeSynReplyFrame (frame : SynReplyFrame) : WriteResult :=
  if frame.StreamId = 0 then ([], some ⟨.ZeroStreamId, 0⟩)
  else (synReplyWire frame (writeHeaderValueBlock frame.Headers), none)

/-- The serialized form of a Headers frame given the header block bytes. -/
def headersWire (frame : HeadersFrame) (hb : List Nat) : List Nat :=
  writeControlFrameHeader
      { version := Version, frameType := TypeHeaders, Flags := frame.CFHeader.Flags,
        length := (hb.length + 4) % 2 ^ 32 } ++
    be32 frame.StreamId ++ hb

/-- Framer.writeHeadersFrame in the compression-disabled configuration. -/
def writeHeadersFrame (frame : HeadersFrame) : WriteResult :=
  if frame.StreamId = 0 then ([], some ⟨.ZeroStreamId, 0⟩)
  else (headersWire frame (writeHeaderValueBlock frame.Headers), none)

/-- Framer.WriteFrame: dispatch on the variant to its write method. -/
def WriteFrame : Frame → WriteResult
  | .synStream f => writeSynStreamFrame f
  | .synReply f => writeSynReplyFrame f
  | .rstStream f => writeRstStreamFrame f
  | .settings f => writeSettingsFrame f
  | .ping f => writePingFrame f
  | .goAway f => writeGoAwayFrame f
  | .headers f => writeHeadersFrame f
  | .windowUpdate f => writeWindowUpdateFrame f
  | .data f => writeDataFrame f

/-! ## Read side (read.go), compression-disabled configuration -/

/-- The entry loop of parseHeaderValueBlock: for each of `n` entries read the
name length and name, diagnose an unlowercased name (normalizing it) and a
duplicate raw-key hit, read the joined value, split it on NUL and Add each
piece. The last diagnostic raised wins, and parsing always continues. -/
def parseHVBLoop (streamId : Nat) :
    Nat → List Nat → HList → Option SpdyError → Option (HList × Option SpdyError × List Nat)
  | 0, r, h, e => some (h, e, r)
  | n + 1, r, h, e =>
    (take32? r).bind fun (nameLen, r) =>
    (takeN? nameLen r).bind fun (nameBytes, r) =>
    let p := if nameBytes ≠ strToLower nameBytes
             then (strToLower nameBytes, some (⟨.UnlowercasedHeaderName, streamId⟩ : SpdyError))
             else (nameBytes, e)
    let name := p.1
    let e := if (hdrIndex h name).isSome then some (⟨.DuplicateHeaders, streamId⟩ : SpdyError) else p.2
    (take32? r).bind fun (valLen, r) =>
    (takeN? valLen r).bind fun (valueBytes, r) =>
    let h := (nulSplit valueBytes).foldl (fun h v => hdrAdd h name v) h
    parseHVBLoop streamId n r h e

/-- parseHeaderValueBlock: reads the 32-bit entry count and runs the entry
loop on an initially empty header map with no diagnostic. -/
def parseHeaderValueBlock (r : List Nat) (streamId : Nat) :
    Option (HList × Option SpdyError × List Nat) :=
  (take32? r).bind fun (numHeaders, r) => parseHVBLoop streamId numHeaders r [] none

/-- RstStreamFrame.read: stream id, then status; a zero status is reported
before the zero-stream-id check. -/
def readRstStreamFrame (h : ControlFrameHeader) (r : List Nat) :
    Option (Except SpdyError (RstStreamFrame × List Nat)) :=
  (take32? r).bind fun (sid, r) =>
  (take32? r).bind fun (status, r) =>
  if status = 0 then some (.error ⟨.InvalidControlFrame, sid⟩)
  else if sid = 0 then some (.error ⟨.ZeroStreamId, 0⟩)
  else some (.ok (⟨h, sid, status⟩, r))

/-- The entry loop of SettingsFrame.read: each entry is a 32-bit word whose
top byte is the flag and low 24 bits the id, then a 32-bit value. -/
def readSettingsLoop :
    Nat → List Nat → List SettingsFlagIdValue →
      Option (List SettingsFlagIdValue × List Nat)
  | 0, r, acc => some (acc, r)
  | n + 1, r, acc =>
    (take32? r).bind fun (flagId, r) =>
    (take32? r).bind fun (value, r) =>
    readSettingsLoop n r (acc ++ [⟨(flagId &&& 0xff000000) >>> 24, flagId &&& 0xffffff, value⟩])

/-- SettingsFrame.read: 32-bit count then that many entries; no validation. -/
def readSettingsFrame (h : ControlFrameHeader) (r : List Nat) :
    Option (Except SpdyError (SettingsFrame × List Nat)) :=
  (take32? r).bind fun (numSettings, r) =>
  (readSettingsLoop numSettings r []).bind fun (fivs, r) =>
  some (.ok (⟨h, fivs⟩, r))

/-- PingFrame.read: id, then a zero-id check and a flags-must-be-zero check. -/
def readPingFrame (h : ControlFrameHeader) (r : List Nat) :
    Option (Except SpdyError (PingFrame × List Nat)) :=
  (take32? r).bind fun (pid, r) =>
  if pid = 0 then some (.error ⟨.ZeroStreamId, 0⟩)
  else if h.Flags ≠ 0 then some (.error ⟨.InvalidControlFrame, pid⟩)
  else some (.ok (⟨h, pid⟩, r))

/-- GoAwayFrame.read: last-good stream id, flag and length checks, status. -/
def readGoAwayFrame (h : ControlFrameHeader) (r : List Nat) :
    Option (Except SpdyError (GoAwayFrame × List Nat)) :=
  (take32? r).bind fun (lastId, r) =>
  if h.Flags ≠ 0 then some (.error ⟨.InvalidControlFrame, lastId⟩)
  else if h.length ≠ 8 then some (.error ⟨.InvalidControlFrame, lastId⟩)
  else
    (take32? r).bind fun (status, r) =>
    some (.ok (⟨h, lastId, status⟩, r))

/-- WindowUpdateFrame.read: stream id, flag and length checks, delta; note
there is no zero-stream-id check. -/
def readWindowUpdateFrame (h : ControlFrameHeader) (r : List Nat) :
    Option (Except SpdyError (WindowUpdateFrame × List Nat)) :=
  (take32? r).bind fun (sid, r) =>
  if h.Flags ≠ 0 then some (.error ⟨.InvalidControlFrame, sid⟩)
  else if h.length ≠ 8 then some (.error ⟨.InvalidControlFrame, sid⟩)
  else
    (take32? r).bind fun (delta, r) =>
    some (.ok (⟨h, sid, delta⟩, r))

/-- Framer.readSynStreamFrame (compression disabled): fixed fields, then the
raw header block from the input; a block diagnostic is returned as the error,
then the banned request-header check, then the zero-stream-id check. -/
def readSynStreamFrame (h : ControlFrameHeader) (r : List Nat) :
    Option (Except SpdyError (SynStreamFrame × List Nat)) :=
  (take32? r).bind fun (sid, r) =>
  (take32? r).bind fun (assoc, r) =>
  (take1? r).bind fun (pb, r) =>
  (take1? r).bind fun (slot, r) =>
  (parseHeaderValueBlock r sid).bind fun (hs, e, r) =>
  match e with
  | some err => some (.error err)
  | none =>
    if hs.any (fun kv => invalidReqHeaders kv.1) then
      some (.error ⟨.InvalidHeaderPresent, sid⟩)
    else if sid = 0 then some (.error ⟨.ZeroStreamId, 0⟩)
    else some (.ok (⟨h, sid, assoc, pb >>> 5, slot, hs⟩, r))

/-- Framer.readSynReplyFrame (compression disabled): stream id, raw header
block, diagnostic propagation, banned response-header check, zero check. -/
def readSynReplyFrame (h : ControlFrameHeader) (r : List Nat) :
    Option (Except SpdyError (SynReplyFrame × List Nat)) :=
  (take32? r).bind fun (sid, r) =>
  (parseHeaderValueBlock r sid).bind fun (hs, e, r) =>
  match e with
  | some err => some (.error err)
  | none =>
    if hs.any (fun kv => invalidRespHeaders kv.1) then
      some (.error ⟨.InvalidHeaderPresent, sid⟩)
    else if sid = 0 then some (.error ⟨.ZeroStreamId, 0⟩)
    else some (.ok (⟨h, sid, hs⟩, r))

/-- Framer.readHeadersFrame (compression disabled): like SynReply but the
banned set is chosen by stream-id parity (even picks the request set). -/
def readHeadersFrame (h : ControlFrameHeader) (r : List Nat) :
    Option (Except SpdyError (HeadersFrame × List Nat)) :=
  (take32? r).bind fun (sid, r) =>
  (parseHeaderValueBlock r sid).bind fun (hs, e, r) =>
  match e with
  | some err => some (.error err)
  | none =>
    let banned := if sid % 2 = 0 then invalidReqHeaders else invalidRespHeaders
    if hs.any (fun kv => banned kv.1) then
      some (.error ⟨.InvalidHeaderPresent, sid⟩)
    else if sid = 0 then some (.error ⟨.ZeroStreamId, 0⟩)
    else some (.ok (⟨h, sid, hs⟩, r))

/-- Framer.parseControlFrame: reads the flags/length word, splits it, builds
the header, and dispatches on the type code; a type outside the constructor
table yields the InvalidControlFrame error (newControlFrame). -/
def parseControlFrame (version frameType : Nat) (r : List Nat) :
    Option (Except SpdyError (Frame × List Nat)) :=
  (take32? r).bind fun (lw, r) =>
  let flags := (lw &&& 0xff000000) >>> 24
  let length := lw &&& 0xffffff
  let h : ControlFrameHeader := ⟨version, frameType, flags, length⟩
  if frameType = TypeSynStream then
    (readSynStreamFrame h r).map (Except.map (fun p => (Frame.synStream p.1, p.2)))
  else if frameType = TypeSynReply then
    (readSynReplyFrame h r).map (Except.map (fun p => (Frame.synReply p.1, p.2)))
  else if frameType = TypeRstStream then
    (readRstStreamFrame h r).map (Except.map (fun p => (Frame.rstStream p.1, p.2)))
  else if frameType = TypeSettings then
    (readSettingsFrame h r).map (Except.map (fun p => (Frame.settings p.1, p.2)))
  else if frameType = TypePing then
    (readPingFrame h r).map (Except.map (fun p => (Frame.ping p.1, p.2)))
  else if frameType = TypeGoAway then
    (readGoAwayFrame h r).map (Except.map (fun p => (Frame.goAway p.1, p.2)))
  else if frameType = TypeHeaders then
    (readHeadersFrame h r).map (Except.map (fun p => (Frame.headers p.1, p.2)))
  else if frameType = TypeWindowUpdate then
    (readWindowUpdateFrame h r).map (Except.map (fun p => (Frame.windowUpdate p.1, p.2)))
  else some (.error ⟨.InvalidControlFrame, 0⟩)

/-- Framer.parseDataFrame: flags/length word, the payload, then the
zero-stream-id check (after the payload has been consumed). -/
def parseDataFrame (streamId : Nat) (r : List Nat) :
    Option (Except SpdyError (DataFrame × List Nat)) :=
  (take32? r).bind fun (lw, r) =>
  let flags := lw >>> 24
  let length := lw &&& 0xffffff
  (takeN? length r).bind fun (d, r) =>
  if streamId = 0 then some (.error ⟨.ZeroStreamId, 0⟩)
  else some (.ok (⟨streamId, flags, d⟩, r))

/-- Framer.ReadFrame: one 32-bit word decides control (high bit set: 15-bit
version and 16-bit type) versus data (31-bit stream id). -/
def ReadFrame (input : List Nat) : Option (Except SpdyError (Frame × List Nat)) :=
  (take32? input).bind fun (firstWord, r) =>
  if firstWord &&& 0x80000000 ≠ 0 then
    parseControlFrame (0x7fff &&& (firstWord >>> 16)) (firstWord &&& 0xffff) r
  else
    (parseDataFrame (firstWord &&& 0x7fffffff) r).map (Except.map (fun p => (Frame.data p.1, p.2)))

/-! ## Compression-path bounded-reader model (read.go lines 152-166, 269-282) -/

/-- The read-direction Framer state that the compression path manipulates:
the remaining-byte count N of the io.LimitedReader fencing the decompressor,
and whether the decompressor has been constructed yet. -/
structure FramerReadState where
  headerReaderN : Nat
  headerDecompressorInit : Bool
deriving DecidableEq

/-- Framer.uncorkHeaderDecompressor: on the first call the bounded reader is
created with N = payloadSize and the zlib decompressor is built over it;
afterwards only N is reset. (The zlib construction itself is external I/O
and cannot fail on the in-memory model.) -/
def uncorkHeaderDecompressor (st : FramerReadState) (payloadSize : Nat) : FramerReadState :=
  if st.headerDecompressorInit then { st with headerReaderN := payloadSize }
  else { headerReaderN := payloadSize, headerDecompressorInit := true }

/-- The compressed-payload bound computed by readSynStreamFrame for the
decompressor: int64(h.length - 10), where h.length is a uint32, so the
subtraction wraps modulo 2^32 (h.length below 10 yields a huge bound). -/
def synStreamCompressedBound (length : Nat) : Nat := (length + 2 ^ 32 - 10) % 2 ^ 32

/-- The prefix of readSynStreamFrame on the compression-enabled path, up to
and including the uncork call: the four fixed fields are read (the priority
byte is shifted right 5), and then, with no validation of h.length
whatsoever, the bounded reader is reset to the wrapped bound. Decompression
itself is external to the model. -/
def readSynStreamFrameUncork (h : ControlFrameHeader) (st : FramerReadState) (r : List Nat) :
    Option ((Nat × Nat × Nat × Nat) × FramerReadState × List Nat) :=
  (take32? r).bind fun (sid, r) =>
  (take32? r).bind fun (assoc, r) =>
  (take1? r).bind fun (pb, r) =>
  (take1? r).bind fun (slot, r) =>
  some ((sid, assoc, pb >>> 5, slot), uncorkHeaderDecompressor st (synStreamCompressedBound h.length), r)

/-- The parsed image of a header map: every key replaced by its canonical
MIME form (what http.Header.Add stores), values unchanged. -/
def canonHdr (h : HList) : HList :=
  h.map (fun kv => (canonicalMIMEHeaderKey kv.1, kv.2))

/-- Well-formedness of a caller header map as the round-trip claims assume
it: distinct names, each name lowercase ASCII of 32-bit length, each value
list nonempty with NUL-free values and a 32-bit joined length. -/
def HeadersWF (h : HList) : Prop :=
  (h.map (fun kv => kv.1)).Nodup ∧
    ∀ kv ∈ h, strToLower kv.1 = kv.1 ∧ (∀ b ∈ kv.1, b < 128) ∧ kv.1.length < 2 ^ 32 ∧
      kv.2 ≠ [] ∧ (∀ v ∈ kv.2, (0 : Nat) ∉ v) ∧ (nulJoin kv.2).length < 2 ^ 32

instance (h : HList) : Decidable (HeadersWF h) := by
  unfold HeadersWF; infer_instance

/-- The 24-bit length field as it appears in an emitted control frame: the
low 24 bits of the second wire word, which are bytes 5, 6 and 7 of the
frame. -/
def wireLengthField (out : List Nat) : Nat :=
  out[5]! * 65536 + out[6]! * 256 + out[7]!

end Spdy

deriving instance DecidableEq for Except

namespace Spdy

/-! ## Helper lemmas: wire primitives -/

theorem take32_be32 (n : Nat) (hn : n < 2 ^ 32) (r : List Nat) :
    take32? (be32 n ++ r) = some (n, r) := by
  simp only [be32, List.cons_append, List.nil_append, take32?, Option.some.injEq, Prod.mk.injEq,
    and_true]
  omega

theorem takeN_append (l r : List Nat) : takeN? l.length (l ++ r) = some (l, r) := by
  simp [takeN?]

theorem take1_cons (b : Nat) (r : List Nat) : take1? (b :: r) = some (b, r) := rfl

/-- The flags byte ORed over a 24-bit length is just their sum. -/
theorem shl24_lor (f L : Nat) (hL : L < 2 ^ 24) : f <<< 24 ||| L = f * 2 ^ 24 + L := by
  rw [Nat.shiftLeft_eq, Nat.mul_comm f (2 ^ 24)]
  exact (Nat.mul_add_lt_is_or hL f).symm

/-- Byte decomposition of the flags/length word of a control-frame header. -/
theorem be32_flags_length (f L : Nat) (hf : f < 256) (hL : L < 2 ^ 24) :
    be32 (f <<< 24 ||| L) = [f, L / 65536, L / 256 % 256, L % 256] := by
  rw [shl24_lor f L hL]
  simp only [be32, List.cons.injEq, and_true]
  refine ⟨by omega, by omega, by omega, by omega⟩

/-! ## Helper lemmas: canonicalization and case -/

theorem asciiLower_canonStep (upper : Bool) (c : Nat) :
    asciiLower (if upper ∧ 97 ≤ c ∧ c ≤ 122 then c - 32
                else if ¬upper ∧ 65 ≤ c ∧ c ≤ 90 then c + 32
                else c) = asciiLower c := by
  simp only [asciiLower]
  split
  · split <;> split <;> omega
  · split
    · split <;> split <;> omega
    · rfl

theorem strToLower_canonLoop (upper : Bool) (s : ByteStr) :
    strToLower (canonLoop upper s) = strToLower s := by
  induction s generalizing upper with
  | nil => rfl
  | cons c cs ih =>
    simp only [canonLoop, strToLower, List.map_cons, List.cons.injEq]
    exact ⟨asciiLower_canonStep upper c, ih _⟩

/-- Canonicalization does not change the lowercase image of a key. -/
theorem strToLower_canonicalMIMEHeaderKey (s : ByteStr) :
    strToLower (canonicalMIMEHeaderKey s) = strToLower s := by
  unfold canonicalMIMEHeaderKey
  split
  · exact strToLower_canonLoop true s
  · rfl

/-- Two lowercase-fixed keys with the same canonical image are equal. -/
theorem canon_inj_of_lower {s t : ByteStr} (hs : strToLower s = s) (ht : strToLower t = t)
    (h : canonicalMIMEHeaderKey s = canonicalMIMEHeaderKey t) : s = t := by
  have := congrArg strToLower h
  rwa [strToLower_canonicalMIMEHeaderKey, strToLower_canonicalMIMEHeaderKey, hs, ht] at this

/-! ## Helper lemmas: NUL join and split -/

theorem nulSplit_ne_nil (s : ByteStr) : nulSplit s ≠ [] := by
  cases s with
  | nil => simp [nulSplit]
  | cons b rest =>
    simp only [nulSplit]
    cases h : nulSplit rest with
    | nil => simp
    | cons p ps => by_cases hb : b = 0 <;> simp [hb]

theorem nulSplit_no_nul {v : ByteStr} (h0 : 0 ∉ v) : nulSplit v = [v] := by
  induction v with
  | nil => rfl
  | cons b rest ih =>
    have hb : b ≠ 0 := fun h => h0 (h ▸ List.mem_cons_self b rest)
    have hrest : 0 ∉ rest := fun h => h0 (List.mem_cons_of_mem b h)
    simp only [nulSplit, ih hrest]
    simp [hb]

theorem nulSplit_append_nul {v : ByteStr} (h0 : 0 ∉ v) (t : ByteStr) :
    nulSplit (v ++ 0 :: t) = v :: nulSplit t := by
  induction v with
  | nil =>
    simp only [List.nil_append, nulSplit]
    cases h : nulSplit t with
    | nil => exact absurd h (nulSplit_ne_nil t)
    | cons p ps => simp
  | cons b rest ih =>
    have hb : b ≠ 0 := fun h => h0 (h ▸ List.mem_cons_self b rest)
    have hrest : 0 ∉ rest := fun h => h0 (List.mem_cons_of_mem b h)
    simp only [List.cons_append, nulSplit, List.append_eq]
    rw [ih hrest]
    simp [hb]

/-- Splitting the NUL-joined value list recovers it, provided the list is
nonempty and no value contains a NUL byte. -/
theorem nulSplit_nulJoin {vs : List ByteStr} (hvs : vs ≠ [])
    (h0 : ∀ v ∈ vs, 0 ∉ v) : nulSplit (nulJoin vs) = vs := by
  induction vs with
  | nil => exact absurd rfl hvs
  | cons v rest ih =>
    cases rest with
    | nil =>
      simp only [nulJoin]
      exact nulSplit_no_nul (h0 v (List.mem_cons_self v []))
    | cons w ws =>
      have hjoin : nulJoin (v :: w :: ws) = v ++ 0 :: nulJoin (w :: ws) := rfl
      rw [hjoin, nulSplit_append_nul (h0 v (List.mem_cons_self v _)),
        ih (by simp) (fun x hx => h0 x (List.mem_cons_of_mem v hx))]

/-! ## Helper lemmas: the header map -/

theorem hdrIndex_eq_none (h : HList) (name : ByteStr)
    (hf : ∀ kv ∈ h, kv.1 ≠ name) : hdrIndex h name = none := by
  unfold hdrIndex
  rw [List.find?_eq_none.mpr]
  · rfl
  · intro kv hkv
    simpa using hf kv hkv

theorem hdrAddKey_fresh (h : HList) (key v : ByteStr)
    (hf : ∀ kv ∈ h, kv.1 ≠ key) : hdrAddKey h key v = h ++ [(key, [v])] := by
  induction h with
  | nil => rfl
  | cons kv rest ih =>
    obtain ⟨k, vs⟩ := kv
    have hk : k ≠ key := hf (k, vs) (List.mem_cons_self _ _)
    simp only [hdrAddKey, if_neg hk, List.cons_append, List.cons.injEq, true_and]
    exact ih (fun kv hkv => hf kv (List.mem_cons_of_mem _ hkv))

theorem hdrAddKey_last (acc : HList) (key : ByteStr) (ws : List ByteStr) (v : ByteStr)
    (hf : ∀ kv ∈ acc, kv.1 ≠ key) :
    hdrAddKey (acc ++ [(key, ws)]) key v = acc ++ [(key, ws ++ [v])] := by
  induction acc with
  | nil => simp [hdrAddKey]
  | cons kv rest ih =>
    obtain ⟨k, kvs⟩ := kv
    have hk : k ≠ key := hf (k, kvs) (List.mem_cons_self _ _)
    simp only [List.cons_append, hdrAddKey, if_neg hk, List.cons.injEq, true_and]
    exact ih (fun kv hkv => hf kv (List.mem_cons_of_mem _ hkv))

theorem foldl_hdrAddKey_last (vs : List ByteStr) (acc : HList) (key : ByteStr)
    (ws : List ByteStr) (hf : ∀ kv ∈ acc, kv.1 ≠ key) :
    vs.foldl (fun h v => hdrAddKey h key v) (acc ++ [(key, ws)]) =
      acc ++ [(key, ws ++ vs)] := by
  induction vs generalizing ws with
  | nil => simp
  | cons v rest ih =>
    simp only [List.foldl_cons]
    rw [hdrAddKey_last acc key ws v hf, ih (ws ++ [v])]
    simp

/-- Adding a nonempty value list under a fresh name appends one entry with
the canonicalized key at the end of the map. -/
theorem foldl_hdrAdd_fresh (vs : List ByteStr) (acc : HList) (name : ByteStr)
    (hf : ∀ kv ∈ acc, kv.1 ≠ canonicalMIMEHeaderKey name) (hvs : vs ≠ []) :
    vs.foldl (fun h v => hdrAdd h name v) acc =
      acc ++ [(canonicalMIMEHeaderKey name, vs)] := by
  cases vs with
  | nil => exact absurd rfl hvs
  | cons v rest =>
    simp only [List.foldl_cons, hdrAdd]
    rw [hdrAddKey_fresh acc _ v hf]
    rw [foldl_hdrAddKey_last rest acc _ [v] hf]
    simp

/-! ## The header-block encode/decode relationship -/

/-- One entry of the block parses back to one appended canonical-key entry,
leaving the accumulated map, diagnostic and remaining input threaded. -/
theorem parseHVBLoop_cons (sid n : Nat) (name : ByteStr) (vs : List ByteStr)
    (rest : List Nat) (acc : HList) (e : Option SpdyError)
    (hlf : strToLower name = name) (hlen : name.length < 2 ^ 32)
    (hvs : vs ≠ []) (hnul : ∀ v ∈ vs, (0 : Nat) ∉ v) (hjl : (nulJoin vs).length < 2 ^ 32)
    (hfresh : ∀ kv ∈ acc, kv.1 ≠ name)
    (hfreshC : ∀ kv ∈ acc, kv.1 ≠ canonicalMIMEHeaderKey name) :
    parseHVBLoop sid (n + 1) (hvbEntry (name, vs) ++ rest) acc e =
      parseHVBLoop sid n rest (acc ++ [(canonicalMIMEHeaderKey name, vs)]) e := by
  have hlenm : name.length = (strToLower name).length := (List.length_map _ _).symm
  simp only [hvbEntry, List.append_assoc, parseHVBLoop]
  rw [take32_be32 _ hlen, Option.some_bind]
  rw [hlenm, takeN_append, Option.some_bind]
  simp only [hlf, ne_eq, eq_self_iff_true, not_true_eq_false, if_false, ite_false,
    hdrIndex_eq_none acc name hfresh, Option.isSome_none, Bool.false_eq_true]
  rw [take32_be32 _ hjl, Option.some_bind, takeN_append, Option.some_bind]
  rw [nulSplit_nulJoin hvs hnul, foldl_hdrAdd_fresh vs acc name hfreshC hvs]

theorem parseHVBLoop_encode (sid : Nat) (pending done : HList) (e : Option SpdyError)
    (rest : List Nat)
    (hnodup : ((done ++ pending).map (fun kv => kv.1)).Nodup)
    (hwf : ∀ kv ∈ done ++ pending,
      strToLower kv.1 = kv.1 ∧ kv.1.length < 2 ^ 32 ∧
        kv.2 ≠ [] ∧ (∀ v ∈ kv.2, (0 : Nat) ∉ v) ∧ (nulJoin kv.2).length < 2 ^ 32) :
    parseHVBLoop sid pending.length (pending.flatMap hvbEntry ++ rest) (canonHdr done) e =
      some (canonHdr (done ++ pending), e, rest) := by
  induction pending generalizing done with
  | nil =>
    simp only [List.length_nil, List.flatMap_nil, List.nil_append, parseHVBLoop,
      List.append_nil]
  | cons kv pending ih =>
    obtain ⟨name, vs⟩ := kv
    have hmem : (name, vs) ∈ done ++ (name, vs) :: pending :=
      List.mem_append_right _ (List.mem_cons_self _ _)
    obtain ⟨hlf, hlen, hvs, hnul, hjl⟩ := hwf (name, vs) hmem
    have hfreshRaw : ∀ kv ∈ done, kv.1 ≠ name := by
      intro kv hkv heq
      have : ((done ++ (name, vs) :: pending).map (fun kv => kv.1)) =
          (done.map (fun kv => kv.1)) ++ name :: (pending.map (fun kv => kv.1)) := by
        simp
      rw [this] at hnodup
      exact (List.disjoint_of_nodup_append hnodup) (heq ▸ List.mem_map_of_mem _ hkv)
        (List.mem_cons_self _ _)
    have hfresh : ∀ kv ∈ canonHdr done, kv.1 ≠ name := by
      intro kv hkv
      obtain ⟨kv0, hkv0, rfl⟩ := List.mem_map.mp hkv
      intro heq
      have hlf0 := (hwf kv0 (List.mem_append_left _ hkv0)).1
      have : strToLower kv0.1 = strToLower name := by
        have := congrArg strToLower heq
        rwa [strToLower_canonicalMIMEHeaderKey] at this
      rw [hlf0, hlf] at this
      exact hfreshRaw kv0 hkv0 this
    have hfreshC : ∀ kv ∈ canonHdr done, kv.1 ≠ canonicalMIMEHeaderKey name := by
      intro kv hkv
      obtain ⟨kv0, hkv0, rfl⟩ := List.mem_map.mp hkv
      intro heq
      have hlf0 := (hwf kv0 (List.mem_append_left _ hkv0)).1
      exact hfreshRaw kv0 hkv0 (canon_inj_of_lower hlf0 hlf heq)
    simp only [List.length_cons, List.flatMap_cons, List.append_assoc]
    rw [parseHVBLoop_cons sid pending.length name vs (pending.flatMap hvbEntry ++ rest)
      (canonHdr done) e hlf hlen hvs hnul hjl hfresh hfreshC]
    have hre : canonHdr done ++ [(canonicalMIMEHeaderKey name, vs)] =
        canonHdr (done ++ [(name, vs)]) := by
      simp [canonHdr]
    rw [hre, ih (done ++ [(name, vs)]) (by simpa using hnodup) (by simpa using hwf)]
    simp

/-- Parsing the serialized block of a well-formed header map yields the map
with canonicalized keys, no diagnostic, and the exact remaining input. -/
theorem parseHeaderValueBlock_encode (h : HList) (rest : List Nat) (sid : Nat)
    (hwf : HeadersWF h) (hcount : h.length < 2 ^ 32) :
    parseHeaderValueBlock (writeHeaderValueBlock h ++ rest) sid =
      some (canonHdr h, none, rest) := by
  obtain ⟨hnodup, hwf'⟩ := hwf
  unfold parseHeaderValueBlock writeHeaderValueBlock
  rw [List.append_assoc, take32_be32 _ hcount, Option.some_bind]
  have := parseHVBLoop_encode sid h [] none rest (by simpa using hnodup)
    (by intro kv hkv
        obtain ⟨h1, _, _, h4, h5, h6⟩ := hwf' kv (by simpa using hkv)
        exact ⟨h1, ‹_›, h4, h5, h6⟩)
  simpa [canonHdr] using this

/-! ## Helper lemmas: flags/length word extraction -/

/-- The low 24 bits of the flags/length word are the length. -/
theorem flagsLen_and_low (f L : Nat) (hL : L < 2 ^ 24) :
    (f <<< 24 ||| L) &&& 0xffffff = L := by
  rw [shl24_lor f L hL]
  have h : (0xffffff : Nat) = 2 ^ 24 - 1 := by norm_num
  rw [h, Nat.and_pow_two_sub_one_eq_mod]
  omega

/-- The top byte of the flags/length word is the flags value. -/
theorem flagsLen_and_high (f L : Nat) (hf : f < 256) (hL : L < 2 ^ 24) :
    ((f <<< 24 ||| L) &&& 0xff000000) >>> 24 = f := by
  apply Nat.eq_of_testBit_eq
  intro j
  rw [shl24_lor f L hL]
  have h24 : (0xff000000 : Nat) = (2 ^ 8 - 1) <<< 24 := by
    rw [Nat.shiftLeft_eq]
    norm_num
  rw [h24]
  simp only [Nat.testBit_shiftRight, Nat.testBit_and, Nat.testBit_shiftLeft,
    Nat.testBit_two_pow_sub_one]
  have hmul : 2 ^ 24 * f + L = f * 2 ^ 24 + L := by ring_nf
  rw [← hmul, Nat.testBit_mul_pow_two_add f hL (24 + j)]
  by_cases hj : j < 8
  · simp [hj]
  · have hft : f.testBit j = false := by
      refine Nat.testBit_lt_two_pow (lt_of_lt_of_le hf ?_)
      calc (256 : Nat) = 2 ^ 8 := by norm_num
        _ ≤ 2 ^ j := Nat.pow_le_pow_right (by norm_num) (by omega)
    simp [hj, hft]

/-- The bound used to read the flags/length word back off the wire. -/
theorem flagsLen_lt (f L : Nat) (hf : f < 256) (hL : L < 2 ^ 24) :
    f <<< 24 ||| L < 2 ^ 32 := by
  rw [shl24_lor f L hL]
  omega

end Spdy

namespace Spdy

/-! ## Dispatch lemmas for ReadFrame -/

theorem ReadFrame_control (w1 : Nat) (hw1 : w1 < 2 ^ 32)
    (hctrl : w1 &&& 0x80000000 ≠ 0) (r : List Nat) :
    ReadFrame (be32 w1 ++ r) =
      parseControlFrame (0x7fff &&& (w1 >>> 16)) (w1 &&& 0xffff) r := by
  unfold ReadFrame
  rw [take32_be32 _ hw1]
  simp only [Option.some_bind]
  rw [if_pos hctrl]

theorem ReadFrame_data (w1 : Nat) (hw1 : w1 < 2 ^ 32)
    (hctrl : w1 &&& 0x80000000 = 0) (r : List Nat) :
    ReadFrame (be32 w1 ++ r) =
      (parseDataFrame (w1 &&& 0x7fffffff) r).map
        (Except.map (fun p => (Frame.data p.1, p.2))) := by
  unfold ReadFrame
  rw [take32_be32 _ hw1]
  simp only [Option.some_bind]
  rw [if_neg (by simp [hctrl])]

theorem parseControlFrame_synStream (v w2 : Nat) (hw2 : w2 < 2 ^ 32) (r : List Nat) :
    parseControlFrame v TypeSynStream (be32 w2 ++ r) =
      (readSynStreamFrame ⟨v, TypeSynStream, (w2 &&& 0xff000000) >>> 24, w2 &&& 0xffffff⟩ r).map
        (Except.map (fun p => (Frame.synStream p.1, p.2))) := by
  unfold parseControlFrame
  rw [take32_be32 _ hw2]
  simp only [Option.some_bind]
  rw [if_true]

theorem parseControlFrame_synReply (v w2 : Nat) (hw2 : w2 < 2 ^ 32) (r : List Nat) :
    parseControlFrame v TypeSynReply (be32 w2 ++ r) =
      (readSynReplyFrame ⟨v, TypeSynReply, (w2 &&& 0xff000000) >>> 24, w2 &&& 0xffffff⟩ r).map
        (Except.map (fun p => (Frame.synReply p.1, p.2))) := by
  unfold parseControlFrame
  rw [take32_be32 _ hw2]
  simp only [Option.some_bind]
  rw [if_neg (by decide), if_true]

theorem parseControlFrame_rstStream (v w2 : Nat) (hw2 : w2 < 2 ^ 32) (r : List Nat) :
    parseControlFrame v TypeRstStream (be32 w2 ++ r) =
      (readRstStreamFrame ⟨v, TypeRstStream, (w2 &&& 0xff000000) >>> 24, w2 &&& 0xffffff⟩ r).map
        (Except.map (fun p => (Frame.rstStream p.1, p.2))) := by
  unfold parseControlFrame
  rw [take32_be32 _ hw2]
  simp only [Option.some_bind]
  rw [if_neg (by decide), if_neg (by decide), if_true]

theorem parseControlFrame_headers (v w2 : Nat) (hw2 : w2 < 2 ^ 32) (r : List Nat) :
    parseControlFrame v TypeHeaders (be32 w2 ++ r) =
      (readHeadersFrame ⟨v, TypeHeaders, (w2 &&& 0xff000000) >>> 24, w2 &&& 0xffffff⟩ r).map
        (Except.map (fun p => (Frame.headers p.1, p.2))) := by
  unfold parseControlFrame
  rw [take32_be32 _ hw2]
  simp only [Option.some_bind]
  rw [if_neg (by decide), if_neg (by decide), if_neg (by decide), if_neg (by decide),
    if_neg (by decide), if_neg (by decide), if_true]

theorem parseControlFrame_windowUpdate (v w2 : Nat) (hw2 : w2 < 2 ^ 32) (r : List Nat) :
    parseControlFrame v TypeWindowUpdate (be32 w2 ++ r) =
      (readWindowUpdateFrame ⟨v, TypeWindowUpdate, (w2 &&& 0xff000000) >>> 24, w2 &&& 0xffffff⟩ r).map
        (Except.map (fun p => (Frame.windowUpdate p.1, p.2))) := by
  unfold parseControlFrame
  rw [take32_be32 _ hw2]
  simp only [Option.some_bind]
  rw [if_neg (by decide), if_neg (by decide), if_neg (by decide), if_neg (by decide),
    if_neg (by decide), if_neg (by decide), if_neg (by decide), if_true]

/-- Parsing an empty header value block consumes four bytes and yields the
empty map with no diagnostic. -/
theorem parseHVB_empty (rest : List Nat) (sid : Nat) :
    parseHeaderValueBlock (be32 0 ++ rest) sid = some ([], none, rest) := by
  unfold parseHeaderValueBlock
  rw [take32_be32 _ (by decide)]
  simp only [Option.some_bind]
  rfl

/-! ## Helper lemmas: length-field accounting -/

/-- For any emitted control header with in-range flags and a 24-bit length,
the length field of the resulting frame is that length and the frame is the
eight header bytes plus the payload. -/
theorem wireLengthField_cfh (v t fl L : Nat) (payload : List Nat)
    (hf : fl < 256) (hL : L < 2 ^ 24) :
    wireLengthField (writeControlFrameHeader ⟨v, t, fl, L⟩ ++ payload) = L ∧
    (writeControlFrameHeader ⟨v, t, fl, L⟩ ++ payload).length = 8 + payload.length := by
  unfold writeControlFrameHeader wireLengthField
  rw [be32_flags_length fl L hf hL]
  simp only [be16, List.cons_append, List.nil_append, List.append_assoc,
    List.getElem!_cons_succ, List.getElem!_cons_zero, List.length_cons, List.length_append]
  constructor
  · omega
  · omega

theorem be32_length (n : Nat) : (be32 n).length = 4 := rfl

theorem settings_entries_length (l : List SettingsFlagIdValue) :
    (l.flatMap (fun fiv => be32 (fiv.Flag <<< 24 ||| fiv.Id) ++ be32 fiv.Value)).length =
      8 * l.length := by
  induction l with
  | nil => rfl
  | cons x xs ih =>
    simp only [List.flatMap_cons, List.length_append, ih, be32_length, List.length_cons]
    omega

/-! ## Claim theorems -/

/-- C4: for every control frame the codec emits successfully (and, for the
header-block variants, for any marshalled block contents, compressed or
raw), the 24-bit length field equals the number of payload bytes after the
8-byte header, provided the flags fit a byte and the payload fits the 24-bit
field: 8 for RstStream, 4 for Ping, 8 for GoAway and WindowUpdate,
8 multiplied by the entry count plus 4 for Settings, the block size plus 10
for SynStream and plus 4 for SynReply and Headers; the last three conjuncts
tie the wire forms to WriteFrame on the compression-disabled Framer. -/
theorem C4_length_field_equals_payload :
    (∀ f : RstStreamFrame, f.StreamId ≠ 0 → f.Status ≠ 0 →
      wireLengthField (WriteFrame (.rstStream f)).1 = (WriteFrame (.rstStream f)).1.length - 8 ∧
      (WriteFrame (.rstStream f)).2 = none) ∧
    (∀ f : PingFrame, f.Id ≠ 0 →
      wireLengthField (WriteFrame (.ping f)).1 = (WriteFrame (.ping f)).1.length - 8 ∧
      (WriteFrame (.ping f)).2 = none) ∧
    (∀ f : GoAwayFrame,
      wireLengthField (WriteFrame (.goAway f)).1 = (WriteFrame (.goAway f)).1.length - 8 ∧
      (WriteFrame (.goAway f)).2 = none) ∧
    (∀ f : WindowUpdateFrame,
      wireLengthField (WriteFrame (.windowUpdate f)).1 = (WriteFrame (.windowUpdate f)).1.length - 8 ∧
      (WriteFrame (.windowUpdate f)).2 = none) ∧
    (∀ f : SettingsFrame, f.CFHeader.Flags < 256 → f.FlagIdValues.length * 8 + 4 < 2 ^ 24 →
      wireLengthField (WriteFrame (.settings f)).1 = (WriteFrame (.settings f)).1.length - 8 ∧
      (WriteFrame (.settings f)).2 = none) ∧
    (∀ (f : SynStreamFrame) (hb : List Nat), f.CFHeader.Flags < 256 → hb.length + 10 < 2 ^ 24 →
      wireLengthField (synStreamWire f hb) = (synStreamWire f hb).length - 8) ∧
    (∀ (f : SynReplyFrame) (hb : List Nat), f.CFHeader.Flags < 256 → hb.length + 4 < 2 ^ 24 →
      wireLengthField (synReplyWire f hb) = (synReplyWire f hb).length - 8) ∧
    (∀ (f : HeadersFrame) (hb : List Nat), f.CFHeader.Flags < 256 → hb.length + 4 < 2 ^ 24 →
      wireLengthField (headersWire f hb) = (headersWire f hb).length - 8) ∧
    (∀ f : SynStreamFrame, f.StreamId ≠ 0 →
      WriteFrame (.synStream f) = (synStreamWire f (writeHeaderValueBlock f.Headers), none)) ∧
    (∀ f : SynReplyFrame, f.StreamId ≠ 0 →
      WriteFrame (.synReply f) = (synReplyWire f (writeHeaderValueBlock f.Headers), none)) ∧
    (∀ f : HeadersFrame, f.StreamId ≠ 0 →
      WriteFrame (.headers f) = (headersWire f (writeHeaderValueBlock f.Headers), none)) := by
  refine ⟨?_, ?_, ?_, ?_, ?_, ?_, ?_, ?_, ?_, ?_, ?_⟩
  · intro f h1 h2
    have e : WriteFrame (.rstStream f) =
        (writeControlFrameHeader ⟨Version, TypeRstStream, 0, 8⟩ ++
          (be32 f.StreamId ++ be32 f.Status), none) := by
      show writeRstStreamFrame f = _
      unfold writeRstStreamFrame
      rw [if_neg h1]
      dsimp only
      rw [if_neg h2, List.append_assoc]
    rw [e]
    have hw := wireLengthField_cfh Version TypeRstStream 0 8
      (be32 f.StreamId ++ be32 f.Status) (by decide) (by decide)
    refine ⟨?_, rfl⟩
    rw [hw.1, hw.2]
    simp [be32]
  · intro f h1
    have e : WriteFrame (.ping f) =
        (writeControlFrameHeader ⟨Version, TypePing, 0, 4⟩ ++ be32 f.Id, none) := by
      show writePingFrame f = _
      unfold writePingFrame
      rw [if_neg h1]
    rw [e]
    have hw := wireLengthField_cfh Version TypePing 0 4 (be32 f.Id) (by decide) (by decide)
    refine ⟨?_, rfl⟩
    rw [hw.1, hw.2]
    simp [be32]
  · intro f
    have e : WriteFrame (.goAway f) =
        (writeControlFrameHeader ⟨Version, TypeGoAway, 0, 8⟩ ++
          (be32 f.LastGoodStreamId ++ be32 f.GoAwayStatus), none) := by
      show writeGoAwayFrame f = _
      unfold writeGoAwayFrame
      dsimp only
      rw [List.append_assoc]
    rw [e]
    have hw := wireLengthField_cfh Version TypeGoAway 0 8
      (be32 f.LastGoodStreamId ++ be32 f.GoAwayStatus) (by decide) (by decide)
    refine ⟨?_, rfl⟩
    rw [hw.1, hw.2]
    simp [be32]
  · intro f
    have e : WriteFrame (.windowUpdate f) =
        (writeControlFrameHeader ⟨Version, TypeWindowUpdate, 0, 8⟩ ++
          (be32 f.StreamId ++ be32 f.DeltaWindowSize), none) := by
      show writeWindowUpdateFrame f = _
      unfold writeWindowUpdateFrame
      dsimp only
      rw [List.append_assoc]
    rw [e]
    have hw := wireLengthField_cfh Version TypeWindowUpdate 0 8
      (be32 f.StreamId ++ be32 f.DeltaWindowSize) (by decide) (by decide)
    refine ⟨?_, rfl⟩
    rw [hw.1, hw.2]
    simp [be32]
  · intro f hfl hsz
    have e : WriteFrame (.settings f) =
        (writeControlFrameHeader
            ⟨Version, TypeSettings, f.CFHeader.Flags, (f.FlagIdValues.length * 8 + 4) % 2 ^ 32⟩ ++
          (be32 f.FlagIdValues.length ++
            f.FlagIdValues.flatMap (fun fiv => be32 (fiv.Flag <<< 24 ||| fiv.Id) ++ be32 fiv.Value)),
          none) := by
      show writeSettingsFrame f = _
      unfold writeSettingsFrame
      dsimp only
      rw [List.append_assoc]
    rw [e]
    have hmod : (f.FlagIdValues.length * 8 + 4) % 2 ^ 32 = f.FlagIdValues.length * 8 + 4 :=
      Nat.mod_eq_of_lt (by omega)
    rw [hmod]
    have hw := wireLengthField_cfh Version TypeSettings f.CFHeader.Flags
      (f.FlagIdValues.length * 8 + 4)
      (be32 f.FlagIdValues.length ++
        f.FlagIdValues.flatMap (fun fiv => be32 (fiv.Flag <<< 24 ||| fiv.Id) ++ be32 fiv.Value))
      hfl (by omega)
    refine ⟨?_, rfl⟩
    rw [hw.1, hw.2]
    rw [List.length_append, settings_entries_length, show (be32 f.FlagIdValues.length).length = 4
      from rfl]
    omega
  · intro f hb hfl hsz
    unfold synStreamWire
    have hmod : (hb.length + 10) % 2 ^ 32 = hb.length + 10 := Nat.mod_eq_of_lt (by omega)
    rw [hmod, List.append_assoc, List.append_assoc, List.append_assoc, List.append_assoc]
    have hw := wireLengthField_cfh Version TypeSynStream f.CFHeader.Flags (hb.length + 10)
      (be32 f.StreamId ++ (be32 f.AssociatedToStreamId ++
        ([f.Priority <<< 5 % 256] ++ ([f.Slot % 256] ++ hb)))) hfl (by omega)
    rw [hw.1, hw.2]
    simp only [List.length_append, be32, List.length_cons, List.length_nil]
    omega
  · intro f hb hfl hsz
    unfold synReplyWire
    have hmod : (hb.length + 4) % 2 ^ 32 = hb.length + 4 := Nat.mod_eq_of_lt (by omega)
    rw [hmod, List.append_assoc]
    have hw := wireLengthField_cfh Version TypeSynReply f.CFHeader.Flags (hb.length + 4)
      (be32 f.StreamId ++ hb) hfl (by omega)
    rw [hw.1, hw.2]
    simp only [List.length_append, be32, List.length_cons, List.length_nil]
    omega
  · intro f hb hfl hsz
    unfold headersWire
    have hmod : (hb.length + 4) % 2 ^ 32 = hb.length + 4 := Nat.mod_eq_of_lt (by omega)
    rw [hmod, List.append_assoc]
    have hw := wireLengthField_cfh Version TypeHeaders f.CFHeader.Flags (hb.length + 4)
      (be32 f.StreamId ++ hb) hfl (by omega)
    rw [hw.1, hw.2]
    simp only [List.length_append, be32, List.length_cons, List.length_nil]
    omega
  · intro f h; show writeSynStreamFrame f = _; unfold writeSynStreamFrame; rw [if_neg h]
  · intro f h; show writeSynReplyFrame f = _; unfold writeSynReplyFrame; rw [if_neg h]
  · intro f h; show writeHeadersFrame f = _; unfold writeHeadersFrame; rw [if_neg h]

/-- Core of the C4 counterexample, for any header value of 2^24 - 17 bytes:
the SynReply is emitted with no error, its payload after the 8-byte header is
2^24 bytes, yet the emitted length field reads 0 because the length
overflowed the 24-bit field into the flags byte. -/
theorem synReply_length_field_overflow_core (d : List Nat)
    (hdlen : d.length = 2 ^ 24 - 17) :
    (WriteFrame (.synReply ⟨⟨0, 0, 0, 0⟩, 1, [([97], [d])]⟩)).2 = none ∧
    wireLengthField (WriteFrame (.synReply ⟨⟨0, 0, 0, 0⟩, 1, [([97], [d])]⟩)).1 = 0 ∧
    (WriteFrame (.synReply ⟨⟨0, 0, 0, 0⟩, 1, [([97], [d])]⟩)).1.length - 8 = 2 ^ 24 := by
  have hwrite : WriteFrame (.synReply ⟨⟨0, 0, 0, 0⟩, 1, [([97], [d])]⟩) =
      (synReplyWire ⟨⟨0, 0, 0, 0⟩, 1, [([97], [d])]⟩ (writeHeaderValueBlock [([97], [d])]),
        none) := by
    show writeSynReplyFrame _ = _
    unfold writeSynReplyFrame
    rw [if_neg (by dsimp only; decide)]
  have hb : writeHeaderValueBlock [([97], [d])] =
      be32 1 ++ (be32 1 ++ ([97] ++ (be32 d.length ++ d))) := by
    unfold writeHeaderValueBlock
    rw [List.flatMap_cons, List.flatMap_nil, List.append_nil]
    unfold hvbEntry
    dsimp only
    rw [show strToLower [97] = [97] from rfl, show nulJoin [d] = d from rfl,
      show ([97] : ByteStr).length = 1 from rfl, List.append_assoc, List.append_assoc]
    rfl
  have hblen : (writeHeaderValueBlock [([97], [d])]).length = 2 ^ 24 - 4 := by
    rw [hb, List.length_append, List.length_append, List.length_append, List.length_append,
      be32_length, be32_length, hdlen, show ([97] : ByteStr).length = 1 from rfl]
    omega
  have hwire : synReplyWire ⟨⟨0, 0, 0, 0⟩, 1, [([97], [d])]⟩ (writeHeaderValueBlock [([97], [d])]) =
      [128, 3, 0, 2, 1, 0, 0, 0] ++ (be32 1 ++ writeHeaderValueBlock [([97], [d])]) := by
    unfold synReplyWire writeControlFrameHeader
    dsimp only
    rw [hblen, show (2 ^ 24 - 4 + 4) % 2 ^ 32 = 2 ^ 24 from by norm_num,
      show ((0 : Nat) <<< 24 ||| 2 ^ 24) = 2 ^ 24 from by decide,
      show be32 (2 ^ 24) = [1, 0, 0, 0] from by decide,
      show be16 (0x8000 ||| Version) = [128, 3] from by decide,
      show be16 TypeSynReply = [0, 2] from by decide, List.append_assoc]
    rfl
  refine ⟨by rw [hwrite], ?_, ?_⟩
  · rw [hwrite]
    show wireLengthField (synReplyWire _ _) = 0
    rw [hwire]
    unfold wireLengthField
    rw [show ([128, 3, 0, 2, 1, 0, 0, 0] : List Nat) ++
        (be32 1 ++ writeHeaderValueBlock [([97], [d])]) =
        128 :: 3 :: 0 :: 2 :: 1 :: 0 :: 0 :: 0 ::
          (be32 1 ++ writeHeaderValueBlock [([97], [d])]) from rfl]
    rw [List.getElem!_cons_succ, List.getElem!_cons_succ, List.getElem!_cons_succ,
      List.getElem!_cons_succ, List.getElem!_cons_succ, List.getElem!_cons_zero]
    rw [List.getElem!_cons_succ, List.getElem!_cons_succ, List.getElem!_cons_succ,
      List.getElem!_cons_succ, List.getElem!_cons_succ, List.getElem!_cons_succ,
      List.getElem!_cons_zero]
    rw [List.getElem!_cons_succ, List.getElem!_cons_succ, List.getElem!_cons_succ,
      List.getElem!_cons_succ, List.getElem!_cons_succ, List.getElem!_cons_succ,
      List.getElem!_cons_succ, List.getElem!_cons_zero]
  · rw [hwrite]
    show (synReplyWire _ _).length - 8 = 2 ^ 24
    rw [hwire, List.length_append, List.length_append, be32_length, hblen,
      show ([128, 3, 0, 2, 1, 0, 0, 0] : List Nat).length = 8 from rfl]
    omega

/-- C4 counterexample: the claim quantifies over every successfully emitted
control frame, but a SynReply whose single header value is 2^24 - 17 bytes
long is emitted with no error while its payload is 2^24 bytes: the length
ORed into the flags/length word overflows the 24-bit field, so the emitted
length field reads 0, not the payload size. -/
theorem C4_synReply_length_field_overflow :
    (WriteFrame (.synReply ⟨⟨0, 0, 0, 0⟩, 1, [([97], [List.replicate (2 ^ 24 - 17) 120])]⟩)).2 =
      none ∧
    wireLengthField
        (WriteFrame (.synReply ⟨⟨0, 0, 0, 0⟩, 1,
          [([97], [List.replicate (2 ^ 24 - 17) 120])]⟩)).1 = 0 ∧
    (WriteFrame (.synReply ⟨⟨0, 0, 0, 0⟩, 1,
        [([97], [List.replicate (2 ^ 24 - 17) 120])]⟩)).1.length - 8 = 2 ^ 24 :=
  synReply_length_field_overflow_core (List.replicate (2 ^ 24 - 17) 120)
    (by rw [List.length_replicate])

theorem C4_length_field_witness :
    wireLengthField (WriteFrame (.ping ⟨⟨0, 0, 0, 0⟩, 1⟩)).1 =
      (WriteFrame (.ping ⟨⟨0, 0, 0, 0⟩, 1⟩)).1.length - 8 ∧
    (WriteFrame (.ping ⟨⟨0, 0, 0, 0⟩, 1⟩)).2 = none ∧
    wireLengthField (synReplyWire ⟨⟨0, 0, 0, 0⟩, 1, []⟩ [0, 0, 0, 0]) =
      (synReplyWire ⟨⟨0, 0, 0, 0⟩, 1, []⟩ [0, 0, 0, 0]).length - 8 :=
  ⟨(C4_length_field_equals_payload.2.1 _ (by decide)).1,
    (C4_length_field_equals_payload.2.1 _ (by decide)).2,
    C4_length_field_equals_payload.2.2.2.2.2.2.1 _ [0, 0, 0, 0] (by decide) (by decide)⟩

/-- C1: the claim says WriteFrame rejects every Data payload of at least
2^24 - 1 bytes with InvalidDataFrame and succeeds only below that bound. The
code instead compares against 0x0f000000: a payload of exactly 2^24 bytes
(stream id 1, top bit clear) is emitted with no error, and because the
length ORed into the flags/length word no longer fits in 24 bits the emitted
header reads flags = 1 and length = 0. A payload of 2^24 - 1 bytes is also
emitted with no error. -/
theorem C1_writeDataFrame_accepts_oversized_payload :
    WriteFrame (.data ⟨1, 0, List.replicate (2 ^ 24) 0⟩) =
      ([0, 0, 0, 1, 1, 0, 0, 0] ++ List.replicate (2 ^ 24) 0, none) ∧
    (WriteFrame (.data ⟨1, 0, List.replicate (2 ^ 24 - 1) 0⟩)).2 = none ∧
    MaxDataLength < 2 ^ 24 := by
  have hok : ∀ (sid fl : Nat) (d : List Nat), sid ≠ 0 → sid &&& 0x80000000 = 0 →
      d.length < 0x0f000000 →
      writeDataFrame ⟨sid, fl, d⟩ = (be32 sid ++ be32 (fl <<< 24 ||| d.length) ++ d, none) := by
    intro sid fl d h1 h2 h3
    unfold writeDataFrame
    dsimp only
    rw [if_neg h1, if_neg ?hc]
    case hc =>
      rintro (hx | hx)
      · exact hx h2
      · omega
  refine ⟨?_, ?_, by decide⟩
  · show writeDataFrame _ = _
    rw [hok 1 0 _ (by decide) (by decide) (by rw [List.length_replicate]; decide)]
    rw [List.length_replicate]
    rw [show be32 1 ++ be32 ((0 : Nat) <<< 24 ||| 2 ^ 24) = [0, 0, 0, 1, 1, 0, 0, 0] from by decide]
  · show (writeDataFrame _).2 = _
    rw [hok 1 0 _ (by decide) (by decide) (by rw [List.length_replicate]; decide)]

/-- C2 counterexample: the claim says an erroring WriteFrame leaves the sink
untouched, and names the RstStream zero-status rejection as an example of a
validation error detected before output. But writing RstStream with stream
id 1 and status 0 returns the InvalidControlFrame error after the eight
header bytes and the four stream-id bytes have already been written. -/
theorem C2_rstStream_zero_status_partial_write :
    WriteFrame (.rstStream ⟨⟨0, 0, 0, 0⟩, 1, 0⟩) =
      ([0x80, 0x03, 0x00, 0x03, 0x00, 0x00, 0x00, 0x08, 0x00, 0x00, 0x00, 0x01],
        some ⟨.InvalidControlFrame, 1⟩) := by decide

/-- C2 amended: every validation error except the RstStream status check is
raised before any byte reaches the sink (zero stream id for SynStream,
SynReply, Headers, RstStream, Data; zero id for Ping; the Data reserved-bit
and size check); the RstStream zero-status error alone is raised after the
twelve bytes of header and stream id have been written. -/
theorem C2_amended_validation_error_output :
    (∀ f : SynStreamFrame, f.StreamId = 0 →
      WriteFrame (.synStream f) = ([], some ⟨.ZeroStreamId, 0⟩)) ∧
    (∀ f : SynReplyFrame, f.StreamId = 0 →
      WriteFrame (.synReply f) = ([], some ⟨.ZeroStreamId, 0⟩)) ∧
    (∀ f : HeadersFrame, f.StreamId = 0 →
      WriteFrame (.headers f) = ([], some ⟨.ZeroStreamId, 0⟩)) ∧
    (∀ f : RstStreamFrame, f.StreamId = 0 →
      WriteFrame (.rstStream f) = ([], some ⟨.ZeroStreamId, 0⟩)) ∧
    (∀ f : PingFrame, f.Id = 0 →
      WriteFrame (.ping f) = ([], some ⟨.ZeroStreamId, 0⟩)) ∧
    (∀ f : DataFrame, f.StreamId = 0 →
      WriteFrame (.data f) = ([], some ⟨.ZeroStreamId, 0⟩)) ∧
    (∀ f : DataFrame, f.StreamId ≠ 0 →
      (f.StreamId &&& 0x80000000 ≠ 0 ∨ 0x0f000000 ≤ f.Data.length) →
      WriteFrame (.data f) = ([], some ⟨.InvalidDataFrame, f.StreamId⟩)) ∧
    (∀ f : RstStreamFrame, f.StreamId ≠ 0 → f.Status = 0 →
      WriteFrame (.rstStream f) =
        (writeControlFrameHeader ⟨Version, TypeRstStream, 0, 8⟩ ++ be32 f.StreamId,
          some ⟨.InvalidControlFrame, f.StreamId⟩) ∧
      (writeControlFrameHeader ⟨Version, TypeRstStream, 0, 8⟩ ++ be32 f.StreamId).length = 12) := by
  refine ⟨?_, ?_, ?_, ?_, ?_, ?_, ?_, ?_⟩
  · intro f h; show writeSynStreamFrame f = _; unfold writeSynStreamFrame; rw [if_pos h]
  · intro f h; show writeSynReplyFrame f = _; unfold writeSynReplyFrame; rw [if_pos h]
  · intro f h; show writeHeadersFrame f = _; unfold writeHeadersFrame; rw [if_pos h]
  · intro f h; show writeRstStreamFrame f = _; unfold writeRstStreamFrame; rw [if_pos h]
  · intro f h; show writePingFrame f = _; unfold writePingFrame; rw [if_pos h]
  · intro f h; show writeDataFrame f = _; unfold writeDataFrame; rw [if_pos h]
  · intro f h hv
    show writeDataFrame f = _
    unfold writeDataFrame
    rw [if_neg h, if_pos hv]
  · intro f h hs
    constructor
    · show writeRstStreamFrame f = _
      unfold writeRstStreamFrame
      rw [if_neg h]
      simp only [if_pos hs]
    · simp [writeControlFrameHeader, be16, be32]

theorem C2_amended_witness :
    WriteFrame (.synStream ⟨⟨0, 0, 0, 0⟩, 0, 0, 0, 0, []⟩) = ([], some ⟨.ZeroStreamId, 0⟩) ∧
    WriteFrame (.data ⟨1, 0, List.replicate 0x0f000000 0⟩) =
      ([], some ⟨.InvalidDataFrame, 1⟩) ∧
    WriteFrame (.rstStream ⟨⟨0, 0, 0, 0⟩, 1, 0⟩) =
      (writeControlFrameHeader ⟨Version, TypeRstStream, 0, 8⟩ ++ be32 1,
        some ⟨.InvalidControlFrame, 1⟩) := by
  refine ⟨C2_amended_validation_error_output.1 _ rfl, ?_, ?_⟩
  · exact C2_amended_validation_error_output.2.2.2.2.2.2.1 _ (by decide)
      (Or.inr (by rw [List.length_replicate]))
  · exact (C2_amended_validation_error_output.2.2.2.2.2.2.2 ⟨⟨0, 0, 0, 0⟩, 1, 0⟩
      (by decide) rfl).1

/-- C3 counterexample: the claim includes WindowUpdate among the variants
whose zero stream id WriteFrame rejects with ZeroStreamId; in fact writing
WindowUpdate with stream id 0 performs no such check and succeeds, emitting
the full sixteen-byte frame with no error. -/
theorem C3_windowUpdate_zero_stream_id_accepted :
    WriteFrame (.windowUpdate ⟨⟨0, 0, 0, 0⟩, 0, 1⟩) =
      ([0x80, 0x03, 0x00, 0x09, 0x00, 0x00, 0x00, 0x08, 0, 0, 0, 0, 0, 0, 0, 1], none) := by
  decide

/-- C3 amended: the zero-stream-id rule holds for SynStream, SynReply,
Headers, RstStream and Data but not for WindowUpdate. On the write side the
five checked variants return ZeroStreamId with nothing emitted, while
WindowUpdate succeeds; on the read side a wire frame with stream id 0 whose
other validations pass yields ZeroStreamId for the five checked variants
(for RstStream only when its status is nonzero, since the status check runs
first), while a zero-stream WindowUpdate is parsed successfully. -/
theorem C3_amended_zero_stream_id :
    (∀ f : SynStreamFrame, f.StreamId = 0 →
      WriteFrame (.synStream f) = ([], some ⟨.ZeroStreamId, 0⟩)) ∧
    (∀ f : SynReplyFrame, f.StreamId = 0 →
      WriteFrame (.synReply f) = ([], some ⟨.ZeroStreamId, 0⟩)) ∧
    (∀ f : HeadersFrame, f.StreamId = 0 →
      WriteFrame (.headers f) = ([], some ⟨.ZeroStreamId, 0⟩)) ∧
    (∀ f : RstStreamFrame, f.StreamId = 0 →
      WriteFrame (.rstStream f) = ([], some ⟨.ZeroStreamId, 0⟩)) ∧
    (∀ f : DataFrame, f.StreamId = 0 →
      WriteFrame (.data f) = ([], some ⟨.ZeroStreamId, 0⟩)) ∧
    (∀ f : WindowUpdateFrame, f.StreamId = 0 → (WriteFrame (.windowUpdate f)).2 = none) ∧
    (∀ status rest, status ≠ 0 → status < 2 ^ 32 →
      ReadFrame (be32 0x80030003 ++ be32 8 ++ be32 0 ++ be32 status ++ rest) =
        some (.error ⟨.ZeroStreamId, 0⟩)) ∧
    (∀ assoc pb slot rest, assoc < 2 ^ 32 →
      ReadFrame (be32 0x80030001 ++ be32 14 ++ be32 0 ++ be32 assoc ++
          pb :: slot :: (be32 0 ++ rest)) =
        some (.error ⟨.ZeroStreamId, 0⟩)) ∧
    (∀ rest, ReadFrame (be32 0x80030002 ++ be32 4 ++ be32 0 ++ be32 0 ++ rest) =
        some (.error ⟨.ZeroStreamId, 0⟩)) ∧
    (∀ rest, ReadFrame (be32 0x80030008 ++ be32 4 ++ be32 0 ++ be32 0 ++ rest) =
        some (.error ⟨.ZeroStreamId, 0⟩)) ∧
    (∀ rest, ReadFrame (be32 0 ++ be32 0 ++ rest) = some (.error ⟨.ZeroStreamId, 0⟩)) ∧
    (∀ delta rest, delta < 2 ^ 32 →
      ReadFrame (be32 0x80030009 ++ be32 8 ++ be32 0 ++ be32 delta ++ rest) =
        some (.ok (.windowUpdate ⟨⟨3, 9, 0, 8⟩, 0, delta⟩, rest))) := by
  refine ⟨?_, ?_, ?_, ?_, ?_, ?_, ?_, ?_, ?_, ?_, ?_, ?_⟩
  · intro f h; show writeSynStreamFrame f = _; unfold writeSynStreamFrame; rw [if_pos h]
  · intro f h; show writeSynReplyFrame f = _; unfold writeSynReplyFrame; rw [if_pos h]
  · intro f h; show writeHeadersFrame f = _; unfold writeHeadersFrame; rw [if_pos h]
  · intro f h; show writeRstStreamFrame f = _; unfold writeRstStreamFrame; rw [if_pos h]
  · intro f h; show writeDataFrame f = _; unfold writeDataFrame; rw [if_pos h]
  · intro f h; rfl
  · intro status rest hne hlt
    simp only [List.append_assoc]
    rw [ReadFrame_control 0x80030003 (by decide) (by decide),
      show (0x7fff : Nat) &&& (0x80030003 >>> 16) = 3 from by decide,
      show (0x80030003 : Nat) &&& 0xffff = TypeRstStream from by decide,
      parseControlFrame_rstStream 3 8 (by decide)]
    unfold readRstStreamFrame
    rw [take32_be32 _ (by decide)]
    simp only [Option.some_bind]
    rw [take32_be32 _ hlt]
    simp only [Option.some_bind]
    rw [if_neg hne]
    simp only [if_true]
    rfl
  · intro assoc pb slot rest hassoc
    simp only [List.append_assoc, List.cons_append]
    rw [ReadFrame_control 0x80030001 (by decide) (by decide),
      show (0x7fff : Nat) &&& (0x80030001 >>> 16) = 3 from by decide,
      show (0x80030001 : Nat) &&& 0xffff = TypeSynStream from by decide,
      parseControlFrame_synStream 3 14 (by decide)]
    unfold readSynStreamFrame
    rw [take32_be32 _ (by decide)]
    simp only [Option.some_bind]
    rw [take32_be32 _ hassoc]
    simp only [Option.some_bind, take1?]
    rw [parseHVB_empty]
    simp only [Option.some_bind, List.any_nil, Bool.false_eq_true, if_false, ite_false, if_true]
    rfl
  · intro rest
    simp only [List.append_assoc]
    rw [ReadFrame_control 0x80030002 (by decide) (by decide),
      show (0x7fff : Nat) &&& (0x80030002 >>> 16) = 3 from by decide,
      show (0x80030002 : Nat) &&& 0xffff = TypeSynReply from by decide,
      parseControlFrame_synReply 3 4 (by decide)]
    unfold readSynReplyFrame
    rw [take32_be32 _ (by decide)]
    simp only [Option.some_bind]
    rw [parseHVB_empty]
    simp only [Option.some_bind, List.any_nil, Bool.false_eq_true, if_false, ite_false, if_true]
    rfl
  · intro rest
    simp only [List.append_assoc]
    rw [ReadFrame_control 0x80030008 (by decide) (by decide),
      show (0x7fff : Nat) &&& (0x80030008 >>> 16) = 3 from by decide,
      show (0x80030008 : Nat) &&& 0xffff = TypeHeaders from by decide,
      parseControlFrame_headers 3 4 (by decide)]
    unfold readHeadersFrame
    rw [take32_be32 _ (by decide)]
    simp only [Option.some_bind]
    rw [parseHVB_empty]
    simp only [Option.some_bind, List.any_nil, Bool.false_eq_true, if_false, ite_false, if_true]
    rfl
  · intro rest
    simp only [List.append_assoc]
    rw [ReadFrame_data 0 (by decide) (by decide),
      show (0 : Nat) &&& 0x7fffffff = 0 from by decide]
    unfold parseDataFrame
    rw [take32_be32 _ (by decide)]
    simp only [Option.some_bind]
    rw [show (0 : Nat) &&& 0xffffff = 0 from by decide,
      show takeN? 0 rest = some ([], rest) from by simp [takeN?]]
    simp only [Option.some_bind, if_true]
    rfl
  · intro delta rest hdelta
    simp only [List.append_assoc]
    rw [ReadFrame_control 0x80030009 (by decide) (by decide),
      show (0x7fff : Nat) &&& (0x80030009 >>> 16) = 3 from by decide,
      show (0x80030009 : Nat) &&& 0xffff = TypeWindowUpdate from by decide,
      parseControlFrame_windowUpdate 3 8 (by decide)]
    unfold readWindowUpdateFrame
    rw [take32_be32 _ (by decide)]
    simp only [Option.some_bind]
    rw [if_neg (by decide), if_neg (by decide), take32_be32 _ hdelta]
    simp only [Option.some_bind]
    rfl

theorem C3_amended_witness :
    WriteFrame (.synStream ⟨⟨0, 0, 0, 0⟩, 0, 0, 0, 0, []⟩) = ([], some ⟨.ZeroStreamId, 0⟩) ∧
    ReadFrame (be32 0x80030003 ++ be32 8 ++ be32 0 ++ be32 1 ++ []) =
      some (.error ⟨.ZeroStreamId, 0⟩) ∧
    ReadFrame (be32 0x80030001 ++ be32 14 ++ be32 0 ++ be32 0 ++ 0 :: 0 :: (be32 0 ++ [])) =
      some (.error ⟨.ZeroStreamId, 0⟩) ∧
    ReadFrame (be32 0x80030009 ++ be32 8 ++ be32 0 ++ be32 1 ++ []) =
      some (.ok (.windowUpdate ⟨⟨3, 9, 0, 8⟩, 0, 1⟩, [])) :=
  ⟨C3_amended_zero_stream_id.1 _ rfl,
    C3_amended_zero_stream_id.2.2.2.2.2.2.1 1 [] (by decide) (by decide),
    C3_amended_zero_stream_id.2.2.2.2.2.2.2.1 0 0 0 [] (by decide),
    C3_amended_zero_stream_id.2.2.2.2.2.2.2.2.2.2.2 1 [] (by decide)⟩

/-- C5 counterexample: the claim says a mapping with lowercase ASCII names
and NUL-free values parses back, after serialization, to the same mapping
(only iteration order excused). In fact http.Header.Add canonicalizes keys,
so the lowercase name foo parses back as Foo; and a name with an empty value
list comes back with one empty-string value. -/
theorem C5_roundtrip_canonicalizes_names :
    parseHeaderValueBlock (writeHeaderValueBlock [(bs "foo", [bs "bar"])]) 1 =
      some ([(bs "Foo", [bs "bar"])], none, []) ∧
    ([(bs "Foo", [bs "bar"])] : HList) ≠ [(bs "foo", [bs "bar"])] ∧
    parseHeaderValueBlock (writeHeaderValueBlock [(bs "a", [])]) 1 =
      some ([(bs "A", [[]])], none, []) := by
  refine ⟨by decide, by decide, by decide⟩

/-- C5 amended: for every header mapping with distinct lowercase ASCII
names, each name bound to at least one value and no value containing a NUL
byte (with the 32-bit length fields in range), parsing the serializer output
yields the same mapping with every name replaced by its canonical MIME form
(the form http.Header.Add stores: for all-token names the first letter and
letters after hyphens uppercased, others lowercased; names with a non-token
byte kept verbatim), values and duplicates preserved in order, with no
diagnostic and the remaining input untouched. -/
theorem C5_amended_header_block_roundtrip (h : HList) (rest : List Nat) (sid : Nat)
    (hwf : HeadersWF h) (hcount : h.length < 2 ^ 32) :
    parseHeaderValueBlock (writeHeaderValueBlock h ++ rest) sid =
      some (canonHdr h, none, rest) :=
  parseHeaderValueBlock_encode h rest sid hwf hcount

theorem C5_amended_header_block_roundtrip_witness :
    HeadersWF [(bs "foo", [bs "bar"]), (bs ":method", [bs "GET", []])] ∧
    parseHeaderValueBlock
        (writeHeaderValueBlock [(bs "foo", [bs "bar"]), (bs ":method", [bs "GET", []])] ++
          [9, 9]) 1 =
      some ([(bs "Foo", [bs "bar"]), (bs ":method", [bs "GET", []])], none, [9, 9]) := by
  constructor
  · decide
  · have hr := C5_amended_header_block_roundtrip
      [(bs "foo", [bs "bar"]), (bs ":method", [bs "GET", []])] [9, 9] 1
      (by decide) (by decide)
    rw [hr]
    decide

/-! Diagnostic propagation through the header-bearing readers. -/

theorem readSynStreamFrame_diag (h : ControlFrameHeader) (sid assoc pb slot : Nat)
    (r rest : List Nat) (hs : HList) (err : SpdyError)
    (hsid : sid < 2 ^ 32) (hassoc : assoc < 2 ^ 32)
    (hp : parseHeaderValueBlock r sid = some (hs, some err, rest)) :
    readSynStreamFrame h (be32 sid ++ be32 assoc ++ pb :: slot :: r) =
      some (.error err) := by
  unfold readSynStreamFrame
  rw [List.append_assoc, take32_be32 _ hsid]
  simp only [Option.some_bind]
  rw [take32_be32 _ hassoc]
  simp only [Option.some_bind, take1?]
  rw [hp]
  simp only [Option.some_bind]

theorem readSynReplyFrame_diag (h : ControlFrameHeader) (sid : Nat)
    (r rest : List Nat) (hs : HList) (err : SpdyError)
    (hsid : sid < 2 ^ 32)
    (hp : parseHeaderValueBlock r sid = some (hs, some err, rest)) :
    readSynReplyFrame h (be32 sid ++ r) = some (.error err) := by
  unfold readSynReplyFrame
  rw [take32_be32 _ hsid]
  simp only [Option.some_bind]
  rw [hp]
  simp only [Option.some_bind]

theorem readHeadersFrame_diag (h : ControlFrameHeader) (sid : Nat)
    (r rest : List Nat) (hs : HList) (err : SpdyError)
    (hsid : sid < 2 ^ 32)
    (hp : parseHeaderValueBlock r sid = some (hs, some err, rest)) :
    readHeadersFrame h (be32 sid ++ r) = some (.error err) := by
  unfold readHeadersFrame
  rw [take32_be32 _ hsid]
  simp only [Option.some_bind]
  rw [hp]
  simp only [Option.some_bind]

/-- C8: on decode of the header-bearing frames (SynStream, SynReply,
Headers) the banned-header check only runs after the whole block has been
parsed, and a duplicate or uppercase diagnostic produced during block
parsing is what the reader returns, even when the parsed block also contains
a banned name (so the frame is still rejected, with the diagnostic). The
last conjunct shows the concrete frame whose block holds the wire-uppercase
banned name Connection: the block parses completely, the parsed map contains
the banned canonical key Connection, and the reader returns the
UnlowercasedHeaderName diagnostic. -/
theorem C8_banned_check_after_block_parse :
    (∀ (h : ControlFrameHeader) (sid assoc pb slot : Nat) (r rest : List Nat)
        (hs : HList) (err : SpdyError), sid < 2 ^ 32 → assoc < 2 ^ 32 →
      parseHeaderValueBlock r sid = some (hs, some err, rest) →
      readSynStreamFrame h (be32 sid ++ be32 assoc ++ pb :: slot :: r) =
        some (.error err)) ∧
    (∀ (h : ControlFrameHeader) (sid : Nat) (r rest : List Nat)
        (hs : HList) (err : SpdyError), sid < 2 ^ 32 →
      parseHeaderValueBlock r sid = some (hs, some err, rest) →
      readSynReplyFrame h (be32 sid ++ r) = some (.error err)) ∧
    (∀ (h : ControlFrameHeader) (sid : Nat) (r rest : List Nat)
        (hs : HList) (err : SpdyError), sid < 2 ^ 32 →
      parseHeaderValueBlock r sid = some (hs, some err, rest) →
      readHeadersFrame h (be32 sid ++ r) = some (.error err)) ∧
    (∀ h : ControlFrameHeader,
      parseHeaderValueBlock (be32 1 ++ be32 10 ++ bs "Connection" ++ be32 5 ++ bs "close") 1 =
        some ([(bs "Connection", [bs "close"])], some ⟨.UnlowercasedHeaderName, 1⟩, []) ∧
      invalidRespHeaders (bs "Connection") = true ∧
      readSynReplyFrame h
          (be32 1 ++ (be32 1 ++ be32 10 ++ bs "Connection" ++ be32 5 ++ bs "close")) =
        some (.error ⟨.UnlowercasedHeaderName, 1⟩)) := by
  refine ⟨readSynStreamFrame_diag, readSynReplyFrame_diag, readHeadersFrame_diag, ?_⟩
  intro h
  refine ⟨by decide, by decide, ?_⟩
  exact readSynReplyFrame_diag h 1 _ [] [(bs "Connection", [bs "close"])]
    ⟨.UnlowercasedHeaderName, 1⟩ (by decide) (by decide)

theorem C8_banned_check_witness :
    readSynReplyFrame ⟨3, 2, 0, 23⟩
        (be32 1 ++ (be32 1 ++ be32 10 ++ bs "Connection" ++ be32 5 ++ bs "close")) =
      some (.error ⟨.UnlowercasedHeaderName, 1⟩) :=
  (C8_banned_check_after_block_parse.2.2.2 ⟨3, 2, 0, 23⟩).2.2

/-- C6: writing Ping with id 1 emits exactly the twelve bytes
80 03 00 06 00 00 00 04 00 00 00 01, and reading those twelve bytes back
returns the Ping frame with id 1, version 3, flags 0 and length 4,
consuming the whole input. -/
theorem C6_ping_roundtrip :
    WriteFrame (.ping ⟨⟨0, 0, 0, 0⟩, 1⟩) =
      ([0x80, 0x03, 0x00, 0x06, 0x00, 0x00, 0x00, 0x04, 0x00, 0x00, 0x00, 0x01], none) ∧
    ReadFrame [0x80, 0x03, 0x00, 0x06, 0x00, 0x00, 0x00, 0x04, 0x00, 0x00, 0x00, 0x01] =
      some (.ok (.ping ⟨⟨3, 6, 0, 4⟩, 1⟩, [])) := by decide

/-- C7 counterexample: the claim says an unknown control-frame type makes
ReadFrame return the UnknownFrameType error; on the wire frame with type
0x0005 it actually returns InvalidControlFrame, a different error code. -/
theorem C7_unknown_type_returns_invalidControlFrame :
    ReadFrame [0x80, 0x03, 0x00, 0x05, 0x00, 0x00, 0x00, 0x00] =
      some (.error ⟨.InvalidControlFrame, 0⟩) ∧
    (ErrorCode.InvalidControlFrame ≠ ErrorCode.UnknownFrameType) := by decide

/-- C7 amended: for every control frame whose type discriminant is outside
the eight known codes, ReadFrame returns the InvalidControlFrame error with
stream id 0 (not UnknownFrameType, which no code path produces; nor is
InvalidControlFrame exclusive to this situation, since for example a
RstStream with status 0 also yields it). -/
theorem C7_amended_unknown_type (w1 w2 : Nat) (rest : List Nat)
    (hw1 : w1 < 2 ^ 32) (hw2 : w2 < 2 ^ 32)
    (hctrl : w1 &&& 0x80000000 ≠ 0)
    (hft : (w1 &&& 0xffff) ∉ ([1, 2, 3, 4, 6, 7, 8, 9] : List Nat)) :
    ReadFrame (be32 w1 ++ be32 w2 ++ rest) = some (.error ⟨.InvalidControlFrame, 0⟩) := by
  unfold ReadFrame
  rw [List.append_assoc, take32_be32 _ hw1]
  simp only [Option.some_bind]
  rw [if_pos hctrl]
  unfold parseControlFrame
  rw [take32_be32 _ hw2]
  simp only [Option.some_bind, TypeSynStream, TypeSynReply, TypeRstStream, TypeSettings,
    TypePing, TypeGoAway, TypeHeaders, TypeWindowUpdate]
  simp only [List.mem_cons, List.not_mem_nil, or_false, not_or] at hft
  obtain ⟨h1, h2, h3, h4, h6, h7, h8, h9⟩ := hft
  rw [if_neg h1, if_neg h2, if_neg h3, if_neg h4, if_neg h6, if_neg h7, if_neg h8, if_neg h9]

theorem C7_amended_unknown_type_witness :
    ReadFrame (be32 0x80030005 ++ be32 0 ++ []) =
      some (.error ⟨.InvalidControlFrame, 0⟩) :=
  C7_amended_unknown_type 0x80030005 0 [] (by decide) (by decide) (by decide) (by decide)

/-! Helpers for the priority claims -/

theorem take32?_cons (b0 b1 b2 b3 : Nat) (r : List Nat) :
    take32? (b0 :: b1 :: b2 :: b3 :: r) =
      some (b0 * 16777216 + b1 * 65536 + b2 * 256 + b3, r) := rfl

theorem take32?_shape : ∀ {l : List Nat} {w : Nat} {r : List Nat},
    take32? l = some (w, r) → ∃ b0 b1 b2 b3, l = b0 :: b1 :: b2 :: b3 :: r
  | [], _, _, h => by simp [take32?] at h
  | [_], _, _, h => by simp [take32?] at h
  | [_, _], _, _, h => by simp [take32?] at h
  | [_, _, _], _, _, h => by simp [take32?] at h
  | b0 :: b1 :: b2 :: b3 :: _, _, _, h => by
    simp only [take32?, Option.some.injEq, Prod.mk.injEq] at h
    exact ⟨b0, b1, b2, b3, by rw [h.2]⟩

theorem take1?_shape : ∀ {l : List Nat} {b : Nat} {r : List Nat},
    take1? l = some (b, r) → l = b :: r
  | [], _, _, h => by simp [take1?] at h
  | x :: t, b, r, h => by
    simp only [take1?, Option.some.injEq, Prod.mk.injEq] at h
    rw [h.1, h.2]

theorem priority_byte_roundtrip (p : Nat) (hp : p ≤ 7) : ((p <<< 5) % 256) >>> 5 = p := by
  rw [Nat.shiftLeft_eq, Nat.shiftRight_eq_div_pow]
  rw [show (2 : Nat) ^ 5 = 32 from rfl]
  omega

/-- Whatever the input, a SynStream frame produced by the reader carries a
priority of at most 7, because the priority byte is shifted right by 5. -/
theorem readSynStreamFrame_priority_le (h : ControlFrameHeader) (r : List Nat)
    (hb : ∀ b ∈ r, b < 256) (f : SynStreamFrame) (rest : List Nat)
    (hread : readSynStreamFrame h r = some (.ok (f, rest))) : f.Priority ≤ 7 := by
  unfold readSynStreamFrame at hread
  cases h1 : take32? r with
  | none => rw [h1] at hread; exact absurd hread (by simp)
  | some p1 =>
    obtain ⟨sid, r1⟩ := p1
    rw [h1] at hread
    simp only [Option.some_bind] at hread
    obtain ⟨a0, a1, a2, a3, hr⟩ := take32?_shape h1
    have hb1 : ∀ b ∈ r1, b < 256 := fun b hbm => hb b (by rw [hr]; simp [hbm])
    cases h2 : take32? r1 with
    | none => rw [h2] at hread; exact absurd hread (by simp)
    | some p2 =>
      obtain ⟨assoc, r2⟩ := p2
      rw [h2] at hread
      simp only [Option.some_bind] at hread
      obtain ⟨c0, c1, c2, c3, hr2⟩ := take32?_shape h2
      have hb2 : ∀ b ∈ r2, b < 256 := fun b hbm => hb1 b (by rw [hr2]; simp [hbm])
      cases h3 : take1? r2 with
      | none => rw [h3] at hread; exact absurd hread (by simp)
      | some p3 =>
        obtain ⟨pb, r3⟩ := p3
        rw [h3] at hread
        simp only [Option.some_bind] at hread
        have hpb : pb < 256 := hb2 pb (by rw [take1?_shape h3]; simp)
        cases h4 : take1? r3 with
        | none => rw [h4] at hread; exact absurd hread (by simp)
        | some p4 =>
          obtain ⟨slot, r4⟩ := p4
          rw [h4] at hread
          simp only [Option.some_bind] at hread
          cases h5 : parseHeaderValueBlock r4 sid with
          | none => rw [h5] at hread; exact absurd hread (by simp)
          | some p5 =>
            obtain ⟨hs, e, r5⟩ := p5
            rw [h5] at hread
            simp only [Option.some_bind] at hread
            cases e with
            | some err => exact absurd hread (by simp)
            | none =>
              split at hread
              · exact absurd hread (by simp)
              · split at hread
                · exact absurd hread (by simp)
                · split at hread
                  · exact absurd hread (by simp)
                  · injection hread with h6
                    injection h6 with h7
                    injection h7 with h8 h9
                    rw [← h8]
                    show pb >>> 5 ≤ 7
                    rw [Nat.shiftRight_eq_div_pow, show (2 : Nat) ^ 5 = 32 from rfl]
                    omega

theorem map_ok_synStream_inv {β : Type} (o : Option (Except SpdyError (β × List Nat)))
    (mk : β → Frame) (f : SynStreamFrame) (rest : List Nat)
    (h : o.map (Except.map (fun p => (mk p.1, p.2))) = some (.ok (.synStream f, rest))) :
    ∃ b, o = some (.ok (b, rest)) ∧ mk b = .synStream f := by
  cases o with
  | none => simp at h
  | some ex =>
    cases ex with
    | error e => simp [Except.map] at h
    | ok pr =>
      simp [Except.map, Prod.ext_iff] at h
      exact ⟨pr.1, by rw [← h.2], h.1⟩

/-- Every SynStream that ReadFrame returns on a well-formed byte stream has
priority at most 7. -/
theorem ReadFrame_synStream_priority_le (input : List Nat) (f : SynStreamFrame)
    (rest : List Nat) (hb : ∀ b ∈ input, b < 256)
    (h : ReadFrame input = some (.ok (.synStream f, rest))) : f.Priority ≤ 7 := by
  unfold ReadFrame at h
  cases h1 : take32? input with
  | none => rw [h1] at h; exact absurd h (by simp)
  | some p1 =>
    obtain ⟨w, r⟩ := p1
    rw [h1] at h
    simp only [Option.some_bind] at h
    obtain ⟨b0, b1, b2, b3, hr⟩ := take32?_shape h1
    have hbr : ∀ b ∈ r, b < 256 := fun b hbm => hb b (by rw [hr]; simp [hbm])
    by_cases hc : w &&& 0x80000000 ≠ 0
    · rw [if_pos hc] at h
      unfold parseControlFrame at h
      cases h2 : take32? r with
      | none => rw [h2] at h; exact absurd h (by simp)
      | some p2 =>
        obtain ⟨lw, r2⟩ := p2
        rw [h2] at h
        simp only [Option.some_bind] at h
        obtain ⟨c0, c1, c2, c3, hr2⟩ := take32?_shape h2
        have hbr2 : ∀ b ∈ r2, b < 256 := fun b hbm => hbr b (by rw [hr2]; simp [hbm])
        by_cases t1 : w &&& 0xffff = TypeSynStream
        · rw [if_pos t1] at h
          obtain ⟨fr, ho, hmk⟩ := map_ok_synStream_inv _ _ f rest h
          exact readSynStreamFrame_priority_le _ r2 hbr2 f rest
            ((Frame.synStream.inj hmk) ▸ ho)
        · rw [if_neg t1] at h
          by_cases t2 : w &&& 0xffff = TypeSynReply
          · rw [if_pos t2] at h
            obtain ⟨fr, _, hmk⟩ := map_ok_synStream_inv _ _ f rest h
            exact absurd hmk (by simp)
          · rw [if_neg t2] at h
            by_cases t3 : w &&& 0xffff = TypeRstStream
            · rw [if_pos t3] at h
              obtain ⟨fr, _, hmk⟩ := map_ok_synStream_inv _ _ f rest h
              exact absurd hmk (by simp)
            · rw [if_neg t3] at h
              by_cases t4 : w &&& 0xffff = TypeSettings
              · rw [if_pos t4] at h
                obtain ⟨fr, _, hmk⟩ := map_ok_synStream_inv _ _ f rest h
                exact absurd hmk (by simp)
              · rw [if_neg t4] at h
                by_cases t5 : w &&& 0xffff = TypePing
                · rw [if_pos t5] at h
                  obtain ⟨fr, _, hmk⟩ := map_ok_synStream_inv _ _ f rest h
                  exact absurd hmk (by simp)
                · rw [if_neg t5] at h
                  by_cases t6 : w &&& 0xffff = TypeGoAway
                  · rw [if_pos t6] at h
                    obtain ⟨fr, _, hmk⟩ := map_ok_synStream_inv _ _ f rest h
                    exact absurd hmk (by simp)
                  · rw [if_neg t6] at h
                    by_cases t7 : w &&& 0xffff = TypeHeaders
                    · rw [if_pos t7] at h
                      obtain ⟨fr, _, hmk⟩ := map_ok_synStream_inv _ _ f rest h
                      exact absurd hmk (by simp)
                    · rw [if_neg t7] at h
                      by_cases t8 : w &&& 0xffff = TypeWindowUpdate
                      · rw [if_pos t8] at h
                        obtain ⟨fr, _, hmk⟩ := map_ok_synStream_inv _ _ f rest h
                        exact absurd hmk (by simp)
                      · rw [if_neg t8] at h
                        exact absurd h (by simp)
    · rw [if_neg hc] at h
      obtain ⟨fr, _, hmk⟩ := map_ok_synStream_inv _ _ f rest h
      exact absurd hmk (by simp)

/-- Writing a SynStream with a valid stream id and well-formed headers and
reading the bytes back yields a SynStream whose fields (in particular the
priority, stored as priority shifted left 5 in one byte and recovered by the
right shift) match the written frame. -/
theorem writeSynStream_read_roundtrip (f : SynStreamFrame) (rest : List Nat)
    (hsid : f.StreamId ≠ 0) (hsid32 : f.StreamId < 2 ^ 32)
    (hassoc : f.AssociatedToStreamId < 2 ^ 32)
    (hprio : f.Priority ≤ 7) (hflags : f.CFHeader.Flags < 256)
    (hhb : (writeHeaderValueBlock f.Headers).length + 10 < 2 ^ 24)
    (hwf : HeadersWF f.Headers) (hcount : f.Headers.length < 2 ^ 32)
    (hban : ∀ kv ∈ canonHdr f.Headers, invalidReqHeaders kv.1 = false) :
    ReadFrame ((WriteFrame (.synStream f)).1 ++ rest) =
      some (.ok (.synStream ⟨⟨3, TypeSynStream, f.CFHeader.Flags,
        (writeHeaderValueBlock f.Headers).length + 10⟩, f.StreamId,
        f.AssociatedToStreamId, f.Priority, f.Slot % 256, canonHdr f.Headers⟩, rest)) := by
  have hwr : WriteFrame (.synStream f) =
      (synStreamWire f (writeHeaderValueBlock f.Headers), none) := by
    show writeSynStreamFrame f = _
    unfold writeSynStreamFrame
    rw [if_neg hsid]
  rw [hwr]
  show ReadFrame (synStreamWire f (writeHeaderValueBlock f.Headers) ++ rest) = _
  unfold synStreamWire writeControlFrameHeader
  dsimp only
  rw [show be16 (0x8000 ||| Version) = [128, 3] from by decide,
    show be16 TypeSynStream = [0, 1] from by decide]
  have hmod : ((writeHeaderValueBlock f.Headers).length + 10) % 2 ^ 32 =
      (writeHeaderValueBlock f.Headers).length + 10 := Nat.mod_eq_of_lt (by omega)
  rw [hmod]
  simp only [List.cons_append, List.nil_append, List.append_assoc]
  have hbe : ∀ R : List Nat, (128 : Nat) :: 3 :: 0 :: 1 :: R = be32 0x80030001 ++ R := by
    intro R
    rw [show be32 0x80030001 = [128, 3, 0, 1] from by decide]
    rfl
  rw [hbe, ReadFrame_control 0x80030001 (by decide) (by decide),
    show (0x7fff : Nat) &&& (0x80030001 >>> 16) = 3 from by decide,
    show (0x80030001 : Nat) &&& 0xffff = TypeSynStream from by decide,
    parseControlFrame_synStream 3 _
      (flagsLen_lt _ _ hflags (by omega)) _]
  rw [flagsLen_and_high _ _ hflags (by omega), flagsLen_and_low _ _ (by omega)]
  unfold readSynStreamFrame
  rw [take32_be32 _ hsid32]
  simp only [Option.some_bind]
  rw [take32_be32 _ hassoc]
  simp only [Option.some_bind, take1?]
  rw [parseHeaderValueBlock_encode f.Headers rest f.StreamId hwf hcount]
  simp only [Option.some_bind]
  have hany : (canonHdr f.Headers).any (fun kv => invalidReqHeaders kv.1) = false := by
    rw [List.any_eq_false]
    intro kv hkv
    simp [hban kv hkv]
  rw [hany]
  simp only [Bool.false_eq_true, if_false, ite_false]
  rw [if_neg hsid, priority_byte_roundtrip f.Priority hprio]
  rfl

/-- C9: a SynStream with priority at most 7 that is written and read back
decodes to the same priority (the encoder emits priority shifted left 5 as
one byte, the parser shifts the byte right 5), and every SynStream returned
by ReadFrame from a byte stream has priority at most 7. -/
theorem C9_priority_roundtrip_and_bound :
    (∀ (f : SynStreamFrame) (rest : List Nat),
      f.StreamId ≠ 0 → f.StreamId < 2 ^ 32 → f.AssociatedToStreamId < 2 ^ 32 →
      f.Priority ≤ 7 → f.CFHeader.Flags < 256 →
      (writeHeaderValueBlock f.Headers).length + 10 < 2 ^ 24 →
      HeadersWF f.Headers → f.Headers.length < 2 ^ 32 →
      (∀ kv ∈ canonHdr f.Headers, invalidReqHeaders kv.1 = false) →
      ReadFrame ((WriteFrame (.synStream f)).1 ++ rest) =
        some (.ok (.synStream ⟨⟨3, TypeSynStream, f.CFHeader.Flags,
          (writeHeaderValueBlock f.Headers).length + 10⟩, f.StreamId,
          f.AssociatedToStreamId, f.Priority, f.Slot % 256, canonHdr f.Headers⟩, rest))) ∧
    (∀ (input : List Nat) (f2 : SynStreamFrame) (r2 : List Nat),
      (∀ b ∈ input, b < 256) →
      ReadFrame input = some (.ok (.synStream f2, r2)) → f2.Priority ≤ 7) :=
  ⟨writeSynStream_read_roundtrip, ReadFrame_synStream_priority_le⟩

theorem C9_priority_witness :
    ReadFrame ((WriteFrame (.synStream
        ⟨⟨0, 0, 0, 0⟩, 1, 0, 3, 0, [(bs ":method", [bs "GET"])]⟩)).1 ++ []) =
      some (.ok (.synStream ⟨⟨3, TypeSynStream, 0,
        (writeHeaderValueBlock [(bs ":method", [bs "GET"])]).length + 10⟩, 1, 0, 3, 0 % 256,
        canonHdr [(bs ":method", [bs "GET"])]⟩, [])) ∧
    (3 : Nat) ≤ 7 := by
  constructor
  · exact C9_priority_roundtrip_and_bound.1
      ⟨⟨0, 0, 0, 0⟩, 1, 0, 3, 0, [(bs ":method", [bs "GET"])]⟩ []
      (by decide) (by decide) (by decide) (by decide) (by decide) (by decide) (by decide)
      (by decide) (by decide)
  · exact C9_priority_roundtrip_and_bound.2
      ((WriteFrame (.synStream ⟨⟨0, 0, 0, 0⟩, 1, 0, 3, 0, [(bs ":method", [bs "GET"])]⟩)).1 ++ [])
      _ [] (by decide)
      (C9_priority_roundtrip_and_bound.1
        ⟨⟨0, 0, 0, 0⟩, 1, 0, 3, 0, [(bs ":method", [bs "GET"])]⟩ []
        (by decide) (by decide) (by decide) (by decide) (by decide) (by decide) (by decide)
        (by decide) (by decide))

/-- C10: on the compression-enabled path, readSynStreamFrame performs no
validation of the 24-bit length before priming the decompressor: after the
ten fixed payload bytes it always resets the bounded reader, and the
remaining-byte count is the uint32 wrap-around of length - 10, so a length
below 10 (for example 9) yields the bound 2^32 - 1 = 4294967295 rather than
an error. -/
theorem C10_uncork_bound_wraps (h : ControlFrameHeader) (st : FramerReadState)
    (sid assoc pb slot : Nat) (r : List Nat)
    (hsid : sid < 2 ^ 32) (hassoc : assoc < 2 ^ 32) (hlen : h.length < 10) :
    readSynStreamFrameUncork h st (be32 sid ++ be32 assoc ++ pb :: slot :: r) =
      some ((sid, assoc, pb >>> 5, slot),
        ⟨(h.length + 2 ^ 32 - 10) % 2 ^ 32, true⟩, r) ∧
    synStreamCompressedBound 9 = 4294967295 := by
  constructor
  · unfold readSynStreamFrameUncork
    rw [List.append_assoc, take32_be32 _ hsid]
    simp only [Option.some_bind]
    rw [take32_be32 _ hassoc]
    simp only [Option.some_bind, take1?, Option.some.injEq, Prod.mk.injEq, true_and, and_true]
    unfold uncorkHeaderDecompressor synStreamCompressedBound
    cases hini : st.headerDecompressorInit <;> simp [hini]
  · decide

theorem C10_uncork_bound_wraps_witness :
    readSynStreamFrameUncork ⟨3, 1, 0, 9⟩ ⟨0, false⟩
        (be32 1 ++ be32 0 ++ 0 :: 0 :: []) =
      some ((1, 0, 0, 0), ⟨4294967295, true⟩, []) ∧
    synStreamCompressedBound 9 = 4294967295 := by
  have h := C10_uncork_bound_wraps ⟨3, 1, 0, 9⟩ ⟨0, false⟩ 1 0 0 0 []
    (by decide) (by decide) (by decide)
  simpa using h

end Spdy
